import Mathlib

/-!
Verification development for the SmartCampus databases benchmark
(`src/entrypoint.go`).  The Go program is embedded shallowly: every
external effect (file system, database round-trips, the wall clock) is
supplied by an explicit oracle record, and each benchmark function of the
source becomes a pure Lean function over those oracles that returns the
`BenchmarkResults` value the Go code would serialize, together with the
observable side-effect traces (database calls issued, output files
created) needed to state the claims.

Conventions:
* Go `time.Time` values are modelled as `Int` nanoseconds since the Unix
  epoch (Go stores wall-clock time at nanosecond resolution); `time.Time`
  subtraction yields a `Duration` (an `int64` nanosecond count) and Go's
  integer division truncates toward zero, i.e. `Int.div`.
* Measured wall-clock durations (`time.Since(start).Milliseconds()`) are
  supplied by clock oracles as `Nat` millisecond values (the monotonic
  clock never runs backwards), cast to `Int` in the results.
* Go errors are opaque values; the embedding tags them with their origin
  (`readerError`, `ingestError chunk`, `queryError id`, ...), which is
  exactly the information the claims speak about.
-/

/-- Origin-tagged error values standing for the opaque Go `error`s that
`entrypoint.go` returns unchanged to `main`. -/
inductive BenchErr where
  | ioError
  | connError
  | schemaError
  | readerError (chunk : Nat)
  | ingestError (chunk : Nat)
  | queryError (id : Nat)
  | invalidConnFormat
deriving DecidableEq, Repr

/-- One input record, mirroring struct `Reading` (entrypoint.go:20-27). -/
structure Reading where
  userId : String
  lastUpdatedTime : Int
  ssid : String
  rssi : Float

/-- One decoded chunk file, mirroring struct `ReadingFile`
(entrypoint.go:29-31). -/
structure ReadingFile where
  response : List Reading

/-- One element of `BenchmarkResults.Ingestion` (entrypoint.go:41-44). -/
structure IngestionSample where
  durationMs : Int
  nRecords : Nat
deriving DecidableEq, Repr

/-- Mirrors struct `QueryResult` (entrypoint.go:33-37). -/
structure QueryResult where
  queryId : Nat
  durationMs : Int
  description : String
deriving DecidableEq, Repr

/-- Mirrors struct `BenchmarkResults` (entrypoint.go:39-46). -/
structure BenchmarkResults where
  dbType : String
  ingestion : List IngestionSample
  queries : List QueryResult

/-- Oracle for the chunk directory `../data/readings`: `chunks i` is the
outcome of opening and JSON-decoding `readings_i.json` (an `IOError` or
`DecodeError` when it fails), `readDirFails` whether `os.ReadDir` on the
directory fails, and `dirCount` the number of directory entries that
`os.ReadDir` returns. -/
structure ChunkDir where
  chunks : Nat → Except BenchErr ReadingFile
  readDirFails : Bool
  dirCount : Nat

/-- Shallow embedding of `loadDataChunk` (entrypoint.go:48-71): open and
decode the chunk file, list the sibling directory, and report
`hasMore = (currentChunk+1 < number of directory entries)`. -/
def loadDataChunk (d : ChunkDir) (currentChunk : Nat) :
    Except BenchErr (Bool × ReadingFile) :=
  match d.chunks currentChunk with
  | .error e => .error e
  | .ok data =>
    if d.readDirFails then .error .ioError
    else if currentChunk + 1 < d.dirCount then .ok (true, data)
    else .ok (false, data)

/-- Nanoseconds per second, the resolution of Go `time.Duration`. -/
def nsPerSecond : Int := 1000000000

/-- Go `time.Hour` as a nanosecond count. -/
def hourNs : Int := 3600 * nsPerSecond

/-- Go `24 * time.Hour` as a nanosecond count. -/
def dayNs : Int := 24 * hourNs

/-- The zero value of Go `time.Time` (January 1 of year 1, UTC), as
nanoseconds relative to the Unix epoch: -62135596800 seconds. -/
def goZeroTime : Int := -62135596800 * nsPerSecond

/-- The middle-timestamp derivation
`middleTime = minTime.Add(maxTime.Sub(minTime) / 2)` that every backend
performs right after query 1 (e.g. entrypoint.go:159); Go's `int64`
division of a `Duration` truncates toward zero, hence `Int.div`. -/
def goMiddleTime (minTime maxTime : Int) : Int :=
  minTime + Int.tdiv (maxTime - minTime) 2

/-- Helper: a successful `loadDataChunk` call that reports `hasMore = true`
can only come from the branch guarded by `currentChunk+1 < dirCount`
(entrypoint.go:66-68). -/
theorem loadDataChunk_true_lt {d : ChunkDir} {i : Nat} {f : ReadingFile}
    (h : loadDataChunk d i = .ok (true, f)) : i + 1 < d.dirCount := by
  unfold loadDataChunk at h
  cases hc : d.chunks i with
  | error e => rw [hc] at h; exact absurd h (by simp)
  | ok data =>
    rw [hc] at h
    by_cases hrd : d.readDirFails
    · simp [hrd] at h
    · by_cases hlt : i + 1 < d.dirCount
      · exact hlt
      · simp [hrd, hlt] at h

/-- The ingestion loop shared verbatim by the five backends that check
write errors (`benchmarkPostgres` entrypoint.go:97-140 and the analogous
loops of timescaledb, questdb, cratedb, clickhouse): read chunk `i`, send
it to the backend (`rejects i` says whether the backend rejects the
write, in which case the Go code returns that error), accumulate
`nRecords`, append one `IngestionSample` with the measured duration
(`dur i` milliseconds) and the cumulative count, and continue while the
reader reported `hasMore`. -/
def ingestLoopChecked (d : ChunkDir) (rejects : Nat → Bool)
    (dur : Nat → Nat) (i nRec : Nat) :
    Except BenchErr (List IngestionSample × Nat) :=
  match h : loadDataChunk d i with
  | .error e => .error e
  | .ok (hasNext, data) =>
    if rejects i then .error (.ingestError i)
    else
      let n := nRec + data.response.length
      let sample : IngestionSample := ⟨(dur i : Int), n⟩
      if hNext : hasNext = true then
        match ingestLoopChecked d rejects dur (i + 1) n with
        | .error e => .error e
        | .ok (rest, nFinal) => .ok (sample :: rest, nFinal)
      else .ok ([sample], n)
termination_by d.dirCount - i
decreasing_by
  subst hNext
  have := loadDataChunk_true_lt h
  omega

/-- The InfluxDB ingestion loop (entrypoint.go:1179-1216).  It has the
same shape as `ingestLoopChecked` except that the source checks no write
error at all: `writeAPI.WritePoint` is asynchronous, its error channel is
never read, and `writeAPI.Flush()` returns nothing — so a backend that
rejects writes cannot influence control flow and the `rejects` oracle of
the run environment is simply never consulted. -/
def ingestLoopUnchecked (d : ChunkDir) (dur : Nat → Nat) (i nRec : Nat) :
    Except BenchErr (List IngestionSample × Nat) :=
  match h : loadDataChunk d i with
  | .error e => .error e
  | .ok (hasNext, data) =>
    let n := nRec + data.response.length
    let sample : IngestionSample := ⟨(dur i : Int), n⟩
    if hNext : hasNext = true then
      match ingestLoopUnchecked d dur (i + 1) n with
      | .error e => .error e
      | .ok (rest, nFinal) => .ok (sample :: rest, nFinal)
    else .ok ([sample], n)
termination_by d.dirCount - i
decreasing_by
  subst hNext
  have := loadDataChunk_true_lt h
  omega

/-- Oracle for the query phase of a SQL-style backend: `fails id` says
whether the backend/connection errors on the call issued for query `id`,
`dur id` the measured milliseconds of a successful call, and
`minTime`/`maxTime` the two timestamps scanned from query 1's result row. -/
structure QueryEnv where
  fails : Nat → Bool
  dur : Nat → Nat
  minTime : Int
  maxTime : Int

/-- The database round-trips `benchmarkPostgres` issues during its query
phase, with the timestamp parameters each SQL statement is invoked with
(entrypoint.go:148, 165, 180, 195, 210, 225, 242, 263, 278, 293, 307,
321, 343, 358). -/
inductive SqlCall where
  | timeBounds
  | countAll
  | countDistinctUsers
  | avgRssi
  | countBefore (t : Int)
  | countAfter (t : Int)
  | countBetween (lo hi : Int)
  | topUsers
  | strongSignal
  | weakSignal
  | topSsids
  | rssiByUser
deriving DecidableEq, Repr

/-- The query identifiers that `benchmarkPostgres` actually sends to the
backend; 8, 14, 17, 18, 19 and 20 are hardcoded sentinel entries. -/
def pgSupportedIds : List Nat := [1, 2, 3, 4, 5, 6, 7, 9, 10, 11, 12, 13, 15, 16]

/-- The identifiers for which `benchmarkPostgres` appends the sentinel
`DurationMs: -1` without contacting the backend (entrypoint.go:253-258,
332-337, 369-395). -/
def pgSentinelIds : List Nat := [8, 14, 17, 18, 19, 20]

/-- One issued query of a SQL-style backend, shared shape of every
non-sentinel query block of the source (e.g. entrypoint.go:146-157):
issue the call, return the Go error unchanged when it fails, otherwise
produce the `QueryResult` with the measured duration. -/
def runSqlQuery (env : QueryEnv) (id : Nat) (desc : String) :
    Except BenchErr QueryResult :=
  if env.fails id then .error (.queryError id)
  else .ok ⟨id, (env.dur id : Int), desc⟩

/-- Shallow embedding of the query phase of `benchmarkPostgres`
(entrypoint.go:142-395): queries run in ascending identifier order, every
issued call that errors aborts the whole function with that error,
identifiers 8, 14, 17-20 are appended with sentinel duration -1 and no
backend call, `middleTime` is derived once right after query 1
(entrypoint.go:159) and its offsets parameterize queries 5, 6, 7, 15, 16.
Returns the `Queries` list together with the trace of issued calls. -/
def postgresQueryPhase (env : QueryEnv) :
    Except BenchErr (List QueryResult × List SqlCall) := do
  -- Query 1: Get time bounds (entrypoint.go:146-157)
  let q1 ← runSqlQuery env 1 "Get time bounds"
  let minTime := env.minTime
  let maxTime := env.maxTime
  -- entrypoint.go:159
  let middleTime := goMiddleTime minTime maxTime
  -- Query 2: Count all records (entrypoint.go:161-174)
  let q2 ← runSqlQuery env 2 "Count all records"
  -- Query 3: Count distinct users (entrypoint.go:176-189)
  let q3 ← runSqlQuery env 3 "Count distinct users"
  -- Query 4: Average RSSI (entrypoint.go:191-204)
  let q4 ← runSqlQuery env 4 "Average RSSI"
  -- Query 5: Records before middle time (entrypoint.go:206-219)
  let q5 ← runSqlQuery env 5 "Records before middle time"
  -- Query 6: Records after middle time (entrypoint.go:221-234)
  let q6 ← runSqlQuery env 6 "Records after middle time"
  -- Query 7: Records around middle time, window built at entrypoint.go:240-241
  let hourBefore := middleTime - hourNs
  let hourAfter := middleTime + hourNs
  let q7 ← runSqlQuery env 7 "Records around middle time (±1 hour)"
  -- Query 8: sentinel, no backend call (entrypoint.go:253-258)
  let q8 : QueryResult := ⟨8, -1, "24 hours aggregation from middle time"⟩
  -- Query 9: Top 10 users by activity (entrypoint.go:260-272)
  let q9 ← runSqlQuery env 9 "Top 10 users by activity"
  -- Query 10: Records with strong signal (entrypoint.go:274-287)
  let q10 ← runSqlQuery env 10 "Records with strong signal"
  -- Query 11: Records with weak signal (entrypoint.go:289-302)
  let q11 ← runSqlQuery env 11 "Records with weak signal"
  -- Query 12: Top SSIDs (entrypoint.go:304-316)
  let q12 ← runSqlQuery env 12 "Top SSIDs"
  -- Query 13: RSSI statistics by user (entrypoint.go:318-330)
  let q13 ← runSqlQuery env 13 "RSSI statistics by user"
  -- Query 14: sentinel, no backend call (entrypoint.go:332-337)
  let q14 : QueryResult := ⟨14, -1, "RSSI percentiles"⟩
  -- Query 15: Records in first half, window (minTime, middleTime) (entrypoint.go:343)
  let q15 ← runSqlQuery env 15 "Records in first half"
  -- Query 16: Records in second half, window (middleTime, maxTime) (entrypoint.go:358)
  let q16 ← runSqlQuery env 16 "Records in second half"
  -- Queries 17-20: sentinels, no backend call (entrypoint.go:369-395)
  let q17 : QueryResult := ⟨17, -1, "Hourly user activity patterns"⟩
  let q18 : QueryResult := ⟨18, -1, "Daily RSSI variance"⟩
  let q19 : QueryResult := ⟨19, -1, "Peak usage hours"⟩
  let q20 : QueryResult := ⟨20, -1, "User session duration analysis"⟩
  return ([q1, q2, q3, q4, q5, q6, q7, q8, q9, q10, q11, q12, q13, q14,
           q15, q16, q17, q18, q19, q20],
          [.timeBounds, .countAll, .countDistinctUsers, .avgRssi,
           .countBefore middleTime, .countAfter middleTime,
           .countBetween hourBefore hourAfter, .topUsers, .strongSignal,
           .weakSignal, .topSsids, .rssiByUser,
           .countBetween minTime middleTime,
           .countBetween middleTime maxTime])

/-- The `Queries` list a successful `benchmarkPostgres` query phase
produces (all fourteen issued calls succeeded with the oracle measured
durations, the six unsupported identifiers carry the sentinel). -/
def pgSuccessQueries (env : QueryEnv) : List QueryResult :=
  [⟨1, (env.dur 1 : Int), "Get time bounds"⟩,
   ⟨2, (env.dur 2 : Int), "Count all records"⟩,
   ⟨3, (env.dur 3 : Int), "Count distinct users"⟩,
   ⟨4, (env.dur 4 : Int), "Average RSSI"⟩,
   ⟨5, (env.dur 5 : Int), "Records before middle time"⟩,
   ⟨6, (env.dur 6 : Int), "Records after middle time"⟩,
   ⟨7, (env.dur 7 : Int), "Records around middle time (±1 hour)"⟩,
   ⟨8, -1, "24 hours aggregation from middle time"⟩,
   ⟨9, (env.dur 9 : Int), "Top 10 users by activity"⟩,
   ⟨10, (env.dur 10 : Int), "Records with strong signal"⟩,
   ⟨11, (env.dur 11 : Int), "Records with weak signal"⟩,
   ⟨12, (env.dur 12 : Int), "Top SSIDs"⟩,
   ⟨13, (env.dur 13 : Int), "RSSI statistics by user"⟩,
   ⟨14, -1, "RSSI percentiles"⟩,
   ⟨15, (env.dur 15 : Int), "Records in first half"⟩,
   ⟨16, (env.dur 16 : Int), "Records in second half"⟩,
   ⟨17, -1, "Hourly user activity patterns"⟩,
   ⟨18, -1, "Daily RSSI variance"⟩,
   ⟨19, -1, "Peak usage hours"⟩,
   ⟨20, -1, "User session duration analysis"⟩]

/-- The call trace of a successful `benchmarkPostgres` query phase: one
bounds query, then the parameterized calls, every time window built from
the single `middleTime` value derived from query 1's result. -/
def pgSuccessTrace (env : QueryEnv) : List SqlCall :=
  [.timeBounds, .countAll, .countDistinctUsers, .avgRssi,
   .countBefore (goMiddleTime env.minTime env.maxTime),
   .countAfter (goMiddleTime env.minTime env.maxTime),
   .countBetween (goMiddleTime env.minTime env.maxTime - hourNs)
     (goMiddleTime env.minTime env.maxTime + hourNs),
   .topUsers, .strongSignal, .weakSignal, .topSsids, .rssiByUser,
   .countBetween env.minTime (goMiddleTime env.minTime env.maxTime),
   .countBetween (goMiddleTime env.minTime env.maxTime) env.maxTime]

/-- Unfolding lemma: a bound `Except` computation succeeds exactly when
both stages succeed. -/
theorem except_bind_ok {α β : Type} {x : Except BenchErr α}
    {f : α → Except BenchErr β} {b : β} :
    x >>= f = .ok b ↔ ∃ a, x = .ok a ∧ f a = .ok b := by
  cases x <;> simp [Bind.bind, Except.bind]

/-- Unfolding lemma: a bound `Except` computation fails exactly when the
first stage fails or the first succeeds and the second fails. -/
theorem except_bind_error {α β : Type} {x : Except BenchErr α}
    {f : α → Except BenchErr β} {e : BenchErr} :
    x >>= f = .error e ↔
      x = .error e ∨ ∃ a, x = .ok a ∧ f a = .error e := by
  cases x <;> simp [Bind.bind, Except.bind]

/-- Unfolding lemma for the final `return` of a query phase. -/
theorem except_pure_ok {α : Type} {a b : α} :
    (pure a : Except BenchErr α) = .ok b ↔ a = b := by
  simp [pure, Except.pure]

/-- Unfolding lemma: a `return` never produces an error. -/
theorem except_pure_error {α : Type} {a : α} {e : BenchErr} :
    (pure a : Except BenchErr α) = .error e ↔ False := by
  simp [pure, Except.pure]

/-- A successful issued query means the call did not fail and the result
carries the identifier, the measured duration and the description. -/
theorem runSqlQuery_ok {env : QueryEnv} {id : Nat} {desc : String}
    {q : QueryResult} (h : runSqlQuery env id desc = .ok q) :
    env.fails id = false ∧ q = ⟨id, (env.dur id : Int), desc⟩ := by
  unfold runSqlQuery at h
  by_cases hf : env.fails id
  · simp [hf] at h
  · simp [hf] at h
    exact ⟨by simp [hf], h.symm⟩

/-- A failed issued query means the call failed and the error names it. -/
theorem runSqlQuery_error {env : QueryEnv} {id : Nat} {desc : String}
    {e : BenchErr} (h : runSqlQuery env id desc = .error e) :
    env.fails id = true ∧ e = .queryError id := by
  unfold runSqlQuery at h
  by_cases hf : env.fails id
  · simp [hf] at h
    exact ⟨hf, h.symm⟩
  · simp [hf] at h

/-- Characterization of a successful postgres query phase: the result is
the explicit 20-entry list with its trace, and none of the fourteen
issued calls failed. -/
theorem postgresQueryPhase_ok {env : QueryEnv}
    {x : List QueryResult × List SqlCall}
    (h : postgresQueryPhase env = .ok x) :
    x = (pgSuccessQueries env, pgSuccessTrace env) ∧
      ∀ id ∈ pgSupportedIds, env.fails id = false := by
  simp only [postgresQueryPhase, except_bind_ok, except_pure_ok] at h
  obtain ⟨q1, hq1, q2, hq2, q3, hq3, q4, hq4, q5, hq5, q6, hq6, q7, hq7,
    q9, hq9, q10, hq10, q11, hq11, q12, hq12, q13, hq13, q15, hq15,
    q16, hq16, hx⟩ := h
  obtain ⟨hf1, he1⟩ := runSqlQuery_ok hq1
  obtain ⟨hf2, he2⟩ := runSqlQuery_ok hq2
  obtain ⟨hf3, he3⟩ := runSqlQuery_ok hq3
  obtain ⟨hf4, he4⟩ := runSqlQuery_ok hq4
  obtain ⟨hf5, he5⟩ := runSqlQuery_ok hq5
  obtain ⟨hf6, he6⟩ := runSqlQuery_ok hq6
  obtain ⟨hf7, he7⟩ := runSqlQuery_ok hq7
  obtain ⟨hf9, he9⟩ := runSqlQuery_ok hq9
  obtain ⟨hf10, he10⟩ := runSqlQuery_ok hq10
  obtain ⟨hf11, he11⟩ := runSqlQuery_ok hq11
  obtain ⟨hf12, he12⟩ := runSqlQuery_ok hq12
  obtain ⟨hf13, he13⟩ := runSqlQuery_ok hq13
  obtain ⟨hf15, he15⟩ := runSqlQuery_ok hq15
  obtain ⟨hf16, he16⟩ := runSqlQuery_ok hq16
  subst he1 he2 he3 he4 he5 he6 he7 he9 he10 he11 he12 he13 he15 he16 hx
  refine ⟨rfl, ?_⟩
  intro id hid
  fin_cases hid <;> assumption

/-- Characterization of a failed postgres query phase: the error is the
`queryError` of one of the issued (non-sentinel) identifiers, and that
call indeed failed. -/
theorem postgresQueryPhase_error {env : QueryEnv} {e : BenchErr}
    (h : postgresQueryPhase env = .error e) :
    ∃ id, e = .queryError id ∧ id ∈ pgSupportedIds ∧ env.fails id = true := by
  simp only [postgresQueryPhase, except_bind_error, except_bind_ok,
    except_pure_error] at h
  rcases h with h | ⟨q1, hq1, h⟩
  · obtain ⟨hf, he⟩ := runSqlQuery_error h
    exact ⟨_, he, by decide, hf⟩
  rcases h with h | ⟨q2, hq2, h⟩
  · obtain ⟨hf, he⟩ := runSqlQuery_error h
    exact ⟨_, he, by decide, hf⟩
  rcases h with h | ⟨q3, hq3, h⟩
  · obtain ⟨hf, he⟩ := runSqlQuery_error h
    exact ⟨_, he, by decide, hf⟩
  rcases h with h | ⟨q4, hq4, h⟩
  · obtain ⟨hf, he⟩ := runSqlQuery_error h
    exact ⟨_, he, by decide, hf⟩
  rcases h with h | ⟨q5, hq5, h⟩
  · obtain ⟨hf, he⟩ := runSqlQuery_error h
    exact ⟨_, he, by decide, hf⟩
  rcases h with h | ⟨q6, hq6, h⟩
  · obtain ⟨hf, he⟩ := runSqlQuery_error h
    exact ⟨_, he, by decide, hf⟩
  rcases h with h | ⟨q7, hq7, h⟩
  · obtain ⟨hf, he⟩ := runSqlQuery_error h
    exact ⟨_, he, by decide, hf⟩
  rcases h with h | ⟨q9, hq9, h⟩
  · obtain ⟨hf, he⟩ := runSqlQuery_error h
    exact ⟨_, he, by decide, hf⟩
  rcases h with h | ⟨q10, hq10, h⟩
  · obtain ⟨hf, he⟩ := runSqlQuery_error h
    exact ⟨_, he, by decide, hf⟩
  rcases h with h | ⟨q11, hq11, h⟩
  · obtain ⟨hf, he⟩ := runSqlQuery_error h
    exact ⟨_, he, by decide, hf⟩
  rcases h with h | ⟨q12, hq12, h⟩
  · obtain ⟨hf, he⟩ := runSqlQuery_error h
    exact ⟨_, he, by decide, hf⟩
  rcases h with h | ⟨q13, hq13, h⟩
  · obtain ⟨hf, he⟩ := runSqlQuery_error h
    exact ⟨_, he, by decide, hf⟩
  rcases h with h | ⟨q15, hq15, h⟩
  · obtain ⟨hf, he⟩ := runSqlQuery_error h
    exact ⟨_, he, by decide, hf⟩
  rcases h with h | ⟨q16, hq16, h⟩
  · obtain ⟨hf, he⟩ := runSqlQuery_error h
    exact ⟨_, he, by decide, hf⟩
  exact absurd h (by simp)

/-- Helper: a successful `loadDataChunk` call that reports `hasMore = false`
comes from the final branch, so `currentChunk+1 ≥ dirCount`. -/
theorem loadDataChunk_false_ge {d : ChunkDir} {i : Nat} {f : ReadingFile}
    (h : loadDataChunk d i = .ok (false, f)) : ¬ i + 1 < d.dirCount := by
  unfold loadDataChunk at h
  cases hc : d.chunks i with
  | error e => rw [hc] at h; exact absurd h (by simp)
  | ok data =>
    rw [hc] at h
    by_cases hrd : d.readDirFails
    · simp [hrd] at h
    · by_cases hlt : i + 1 < d.dirCount
      · simp [hrd, hlt] at h
      · exact hlt

/-- Helper: a successful `loadDataChunk` call returns exactly the decoded
content of the chunk file it opened. -/
theorem loadDataChunk_ok_chunks {d : ChunkDir} {i : Nat} {b : Bool}
    {f : ReadingFile} (h : loadDataChunk d i = .ok (b, f)) :
    d.chunks i = .ok f := by
  unfold loadDataChunk at h
  cases hc : d.chunks i with
  | error e => rw [hc] at h; exact absurd h (by simp)
  | ok data =>
    rw [hc] at h
    by_cases hrd : d.readDirFails
    · simp [hrd] at h
    · by_cases hlt : i + 1 < d.dirCount <;> simp [hrd, hlt] at h <;>
        rw [h.2]

/-- The number of records in chunk file `j` (zero for a missing or
malformed file; a successful run never reads such a file). -/
def chunkLen (d : ChunkDir) (j : Nat) : Nat :=
  match d.chunks j with
  | .ok f => f.response.length
  | .error _ => 0

/-- One-step unfolding of `ingestLoopChecked` as a plain match,
convenient for rewriting. -/
theorem ingestLoopChecked_unfold (d : ChunkDir) (rejects : Nat → Bool)
    (dur : Nat → Nat) (i nRec : Nat) :
    ingestLoopChecked d rejects dur i nRec =
      match loadDataChunk d i with
      | .error e => .error e
      | .ok (hasNext, data) =>
        if rejects i then .error (.ingestError i)
        else
          let n := nRec + data.response.length
          let sample : IngestionSample := ⟨(dur i : Int), n⟩
          if hasNext then
            match ingestLoopChecked d rejects dur (i + 1) n with
            | .error e => .error e
            | .ok (rest, nFinal) => .ok (sample :: rest, nFinal)
          else .ok ([sample], n) := by
  rw [ingestLoopChecked]
  cases hld : loadDataChunk d i with
  | error e => rfl
  | ok p =>
    obtain ⟨hasNext, data⟩ := p
    cases hasNext <;> rfl

/-- Step lemma: when the reader fails, the checked ingestion loop
returns that error. -/
theorem ingestLoopChecked_err_step {d : ChunkDir} {i : Nat} {e : BenchErr}
    (hld : loadDataChunk d i = .error e) (rejects : Nat → Bool)
    (dur : Nat → Nat) (nRec : Nat) :
    ingestLoopChecked d rejects dur i nRec = .error e := by
  rw [ingestLoopChecked_unfold, hld]

/-- Step lemma: when the reader succeeds, the checked ingestion loop
proceeds with the returned chunk. -/
theorem ingestLoopChecked_ok_step {d : ChunkDir} {i : Nat} {hasNext : Bool}
    {data : ReadingFile} (hld : loadDataChunk d i = .ok (hasNext, data))
    {rejects : Nat → Bool} {dur : Nat → Nat} {nRec : Nat} :
    ingestLoopChecked d rejects dur i nRec =
      (if rejects i then .error (.ingestError i)
       else
         let n := nRec + data.response.length
         let sample : IngestionSample := ⟨(dur i : Int), n⟩
         if hasNext then
           match ingestLoopChecked d rejects dur (i + 1) n with
           | .error e => .error e
           | .ok (rest, nFinal) => .ok (sample :: rest, nFinal)
         else .ok ([sample], n)) := by
  rw [ingestLoopChecked_unfold, hld]

/-- Specification of a successful run of the checked ingestion loop
starting at chunk `i` with running count `nRec`: it produces one sample
per chunk read (`max 1 (dirCount - i)` of them), the `k`-th sample's
`nRecords` is the running count plus the cumulative size of chunks
`i..i+k`, and the final count adds every chunk read. -/
theorem ingestLoopChecked_ok_spec {d : ChunkDir} {rejects : Nat → Bool}
    {dur : Nat → Nat} :
    ∀ i nRec (samples : List IngestionSample) (nFinal : Nat),
      ingestLoopChecked d rejects dur i nRec = .ok (samples, nFinal) →
      samples.length = max 1 (d.dirCount - i) ∧
      (∀ k (hk : k < samples.length),
        (samples.get ⟨k, hk⟩).nRecords
          = nRec + ∑ j ∈ Finset.range (k + 1), chunkLen d (i + j)) ∧
      nFinal = nRec + ∑ j ∈ Finset.range samples.length, chunkLen d (i + j) := by
  have H : ∀ m i, d.dirCount - i < m →
      ∀ nRec samples nFinal,
        ingestLoopChecked d rejects dur i nRec = .ok (samples, nFinal) →
        samples.length = max 1 (d.dirCount - i) ∧
        (∀ k (hk : k < samples.length),
          (samples.get ⟨k, hk⟩).nRecords
            = nRec + ∑ j ∈ Finset.range (k + 1), chunkLen d (i + j)) ∧
        nFinal = nRec + ∑ j ∈ Finset.range samples.length, chunkLen d (i + j) := by
    intro m
    induction m with
    | zero => intro i hi; omega
    | succ m ihm =>
      intro i hi nRec samples nFinal h
      cases hld : loadDataChunk d i with
      | error e => rw [ingestLoopChecked_err_step hld] at h; exact absurd h (by simp)
      | ok p =>
        obtain ⟨hasNext, data⟩ := p
        rw [ingestLoopChecked_ok_step hld] at h
        by_cases hrej : rejects i = true
        · simp [hrej] at h
        · have hcl : chunkLen d i = data.response.length := by
            unfold chunkLen; rw [loadDataChunk_ok_chunks hld]
          cases hasNext with
          | true =>
            have hlt := loadDataChunk_true_lt hld
            simp only [hrej, Bool.false_eq_true, if_false, if_true] at h
            cases hrec : ingestLoopChecked d rejects dur (i + 1)
                (nRec + data.response.length) with
            | error e => rw [hrec] at h; simp at h
            | ok pr =>
              obtain ⟨rest, nF⟩ := pr
              rw [hrec] at h
              simp only [Except.ok.injEq, Prod.mk.injEq] at h
              obtain ⟨hs, hn⟩ := h
              subst hs hn
              obtain ⟨ihlen, ihrec, ihfin⟩ :=
                ihm (i + 1) (by omega) (nRec + data.response.length)
                  rest nF hrec
              have hshift : ∀ k : Nat,
                  ∑ j ∈ Finset.range (k + 1), chunkLen d (i + j)
                    = chunkLen d i
                      + ∑ j ∈ Finset.range k, chunkLen d (i + 1 + j) := by
                intro k
                rw [Finset.sum_range_succ']
                have hcg : ∀ j ∈ Finset.range k,
                    chunkLen d (i + (j + 1)) = chunkLen d (i + 1 + j) := by
                  intro j hj
                  congr 1
                  omega
                rw [Finset.sum_congr rfl hcg]
                simp only [Nat.add_zero]
                exact Nat.add_comm _ _
              refine ⟨?_, ?_, ?_⟩
              · simp only [List.length_cons, ihlen]
                omega
              · intro k hk
                match k with
                | 0 => simp [List.get, hcl]
                | k + 1 =>
                  have hk2 : k < rest.length := by
                    simpa using Nat.lt_of_succ_lt_succ hk
                  have hr := ihrec k hk2
                  simp only [List.get] at hr ⊢
                  rw [hr, hshift (k + 1), hcl]
                  omega
              · rw [ihfin, List.length_cons, hshift rest.length, hcl]
                omega
          | false =>
            have hge := loadDataChunk_false_ge hld
            simp only [hrej, Bool.false_eq_true, if_false] at h
            simp only [Except.ok.injEq, Prod.mk.injEq] at h
            obtain ⟨hs, hn⟩ := h
            subst hs hn
            refine ⟨by simp; omega, ?_, ?_⟩
            · intro k hk
              match k with
              | 0 => simp [List.get, hcl]
              | k + 1 => simp at hk
            · simp [Finset.range_one, hcl]
  intro i nRec samples nFinal h
  exact H (d.dirCount - i + 1) i (by omega) nRec samples nFinal h

/-- Shallow embedding of the query phase shared (up to the literal SQL
text, which is outside this model) by `benchmarkTimescaleDb`
(entrypoint.go:481-779), `benchmarkQuestDb` (entrypoint.go:857-1151),
`benchmarkCrateDB` (entrypoint.go:1882-2180) and `benchmarkClickHouse`
(entrypoint.go:2281-2579): all twenty queries are issued in ascending
identifier order, any call error aborts the run with that error, and
every entry records a measured duration — none of these four adapters
ever appends the sentinel.  (`middleTime` is derived after query 1 and
interpolated into the SQL text of queries 5-8, 15 and 16 exactly as in
the postgres variant; these four variants return no call trace here
because no claim inspects their parameters.) -/
def fullSqlQueryPhase (env : QueryEnv) :
    Except BenchErr (List QueryResult) := do
  let q1 ← runSqlQuery env 1 "Get time bounds"
  let q2 ← runSqlQuery env 2 "Count all records"
  let q3 ← runSqlQuery env 3 "Count distinct users"
  let q4 ← runSqlQuery env 4 "Average RSSI"
  let q5 ← runSqlQuery env 5 "Records before middle time"
  let q6 ← runSqlQuery env 6 "Records after middle time"
  let q7 ← runSqlQuery env 7 "Records around middle time (±1 hour)"
  let q8 ← runSqlQuery env 8 "24 hours aggregation from middle time"
  let q9 ← runSqlQuery env 9 "Top 10 users by activity"
  let q10 ← runSqlQuery env 10 "Records with strong signal"
  let q11 ← runSqlQuery env 11 "Records with weak signal"
  let q12 ← runSqlQuery env 12 "Top SSIDs"
  let q13 ← runSqlQuery env 13 "RSSI statistics by user"
  let q14 ← runSqlQuery env 14 "RSSI percentiles"
  let q15 ← runSqlQuery env 15 "Records in first half"
  let q16 ← runSqlQuery env 16 "Records in second half"
  let q17 ← runSqlQuery env 17 "Hourly user activity patterns"
  let q18 ← runSqlQuery env 18 "Daily RSSI variance"
  let q19 ← runSqlQuery env 19 "Peak usage hours"
  let q20 ← runSqlQuery env 20 "User session duration analysis"
  return [q1, q2, q3, q4, q5, q6, q7, q8, q9, q10, q11, q12, q13, q14,
          q15, q16, q17, q18, q19, q20]

/-- The `Queries` list a successful full-SQL query phase produces: all
twenty entries measured. -/
def fullSqlSuccessQueries (env : QueryEnv) : List QueryResult :=
  [⟨1, (env.dur 1 : Int), "Get time bounds"⟩,
   ⟨2, (env.dur 2 : Int), "Count all records"⟩,
   ⟨3, (env.dur 3 : Int), "Count distinct users"⟩,
   ⟨4, (env.dur 4 : Int), "Average RSSI"⟩,
   ⟨5, (env.dur 5 : Int), "Records before middle time"⟩,
   ⟨6, (env.dur 6 : Int), "Records after middle time"⟩,
   ⟨7, (env.dur 7 : Int), "Records around middle time (±1 hour)"⟩,
   ⟨8, (env.dur 8 : Int), "24 hours aggregation from middle time"⟩,
   ⟨9, (env.dur 9 : Int), "Top 10 users by activity"⟩,
   ⟨10, (env.dur 10 : Int), "Records with strong signal"⟩,
   ⟨11, (env.dur 11 : Int), "Records with weak signal"⟩,
   ⟨12, (env.dur 12 : Int), "Top SSIDs"⟩,
   ⟨13, (env.dur 13 : Int), "RSSI statistics by user"⟩,
   ⟨14, (env.dur 14 : Int), "RSSI percentiles"⟩,
   ⟨15, (env.dur 15 : Int), "Records in first half"⟩,
   ⟨16, (env.dur 16 : Int), "Records in second half"⟩,
   ⟨17, (env.dur 17 : Int), "Hourly user activity patterns"⟩,
   ⟨18, (env.dur 18 : Int), "Daily RSSI variance"⟩,
   ⟨19, (env.dur 19 : Int), "Peak usage hours"⟩,
   ⟨20, (env.dur 20 : Int), "User session duration analysis"⟩]

/-- Characterization of a successful full-SQL query phase. -/
theorem fullSqlQueryPhase_ok {env : QueryEnv} {qs : List QueryResult}
    (h : fullSqlQueryPhase env = .ok qs) :
    qs = fullSqlSuccessQueries env := by
  simp only [fullSqlQueryPhase, except_bind_ok, except_pure_ok] at h
  obtain ⟨q1, hq1, q2, hq2, q3, hq3, q4, hq4, q5, hq5, q6, hq6, q7, hq7,
    q8, hq8, q9, hq9, q10, hq10, q11, hq11, q12, hq12, q13, hq13,
    q14, hq14, q15, hq15, q16, hq16, q17, hq17, q18, hq18, q19, hq19,
    q20, hq20, hx⟩ := h
  obtain ⟨hf1, he1⟩ := runSqlQuery_ok hq1
  obtain ⟨hf2, he2⟩ := runSqlQuery_ok hq2
  obtain ⟨hf3, he3⟩ := runSqlQuery_ok hq3
  obtain ⟨hf4, he4⟩ := runSqlQuery_ok hq4
  obtain ⟨hf5, he5⟩ := runSqlQuery_ok hq5
  obtain ⟨hf6, he6⟩ := runSqlQuery_ok hq6
  obtain ⟨hf7, he7⟩ := runSqlQuery_ok hq7
  obtain ⟨hf8, he8⟩ := runSqlQuery_ok hq8
  obtain ⟨hf9, he9⟩ := runSqlQuery_ok hq9
  obtain ⟨hf10, he10⟩ := runSqlQuery_ok hq10
  obtain ⟨hf11, he11⟩ := runSqlQuery_ok hq11
  obtain ⟨hf12, he12⟩ := runSqlQuery_ok hq12
  obtain ⟨hf13, he13⟩ := runSqlQuery_ok hq13
  obtain ⟨hf14, he14⟩ := runSqlQuery_ok hq14
  obtain ⟨hf15, he15⟩ := runSqlQuery_ok hq15
  obtain ⟨hf16, he16⟩ := runSqlQuery_ok hq16
  obtain ⟨hf17, he17⟩ := runSqlQuery_ok hq17
  obtain ⟨hf18, he18⟩ := runSqlQuery_ok hq18
  obtain ⟨hf19, he19⟩ := runSqlQuery_ok hq19
  obtain ⟨hf20, he20⟩ := runSqlQuery_ok hq20
  subst he1 he2 he3 he4 he5 he6 he7 he8 he9 he10 he11 he12 he13 he14
    he15 he16 he17 he18 he19 he20 hx
  rfl

/-- Oracle for the InfluxDB query phase: query 1 issues two Flux calls
(min then max, entrypoint.go:1224-1268), each of which can fail
independently; queries 2-20 issue one Flux call each.  `minVal`/`maxVal`
are the times consumed from the two query-1 result streams. -/
structure InfluxQueryEnv where
  q1MinFails : Bool
  q1MaxFails : Bool
  fails : Nat → Bool
  dur : Nat → Nat
  minVal : Int
  maxVal : Int

/-- The Flux round-trips `benchmarkInfluxDB` issues, with the time-range
parameters interpolated into the query text (`range(start: ..., stop:
...)`), recorded for every issued call whether it succeeds or fails. -/
inductive FluxCall where
  | minTimeQ
  | maxTimeQ
  | plain (id : Nat)
  | rangeTo (id : Nat) (stop : Int)
  | rangeFrom (id : Nat) (start : Int)
  | range (id : Nat) (start stop : Int)
deriving DecidableEq, Repr

/-- One InfluxDB query block for identifiers 2-20 (e.g.
entrypoint.go:1273-1298): a failed call appends the sentinel entry and
the run continues; a successful call appends the measured duration. -/
def influxQueryResult (env : InfluxQueryEnv) (id : Nat) (desc : String) :
    QueryResult :=
  if env.fails id then ⟨id, -1, desc⟩ else ⟨id, (env.dur id : Int), desc⟩

/-- Shallow embedding of the query phase of `benchmarkInfluxDB`
(entrypoint.go:1218-1803).  Unlike every other backend, no query failure
aborts the run: each failing Flux call is recorded as the sentinel entry
for its identifier.  Query 1 issues two calls; if the first (min) fails,
the second is not issued and both `minTime` and `maxTime` keep the Go
`time.Time` zero value; if only the second (max) fails, `minTime` keeps
the consumed value and `maxTime` stays zero.  `middleTime` is then
derived at entrypoint.go:1271 from whatever `minTime`/`maxTime` hold and
parameterizes the ranges of queries 5-8, 15 and 16. -/
def influxQueryPhase (env : InfluxQueryEnv) :
    List QueryResult × List FluxCall :=
  let step1 : QueryResult × Int × Int × List FluxCall :=
    if env.q1MinFails then
      (⟨1, -1, "Get time bounds"⟩, goZeroTime, goZeroTime, [.minTimeQ])
    else if env.q1MaxFails then
      (⟨1, -1, "Get time bounds"⟩, env.minVal, goZeroTime,
        [.minTimeQ, .maxTimeQ])
    else
      (⟨1, (env.dur 1 : Int), "Get time bounds"⟩, env.minVal, env.maxVal,
        [.minTimeQ, .maxTimeQ])
  let q1 := step1.1
  let minTime := step1.2.1
  let maxTime := step1.2.2.1
  let tr1 := step1.2.2.2
  -- entrypoint.go:1271
  let middleTime := goMiddleTime minTime maxTime
  -- entrypoint.go:1413-1414 and 1442
  let hourBefore := middleTime - hourNs
  let hourAfter := middleTime + hourNs
  let dayAfter := middleTime + dayNs
  ([q1,
    influxQueryResult env 2 "Count all records",
    influxQueryResult env 3 "Count distinct users",
    influxQueryResult env 4 "Average RSSI",
    influxQueryResult env 5 "Records before middle time",
    influxQueryResult env 6 "Records after middle time",
    influxQueryResult env 7 "Records around middle time (±1 hour)",
    influxQueryResult env 8 "24 hours aggregation from middle time",
    influxQueryResult env 9 "Top 10 users by activity",
    influxQueryResult env 10 "Records with strong signal",
    influxQueryResult env 11 "Records with weak signal",
    influxQueryResult env 12 "Top SSIDs",
    influxQueryResult env 13 "RSSI statistics by user",
    influxQueryResult env 14 "RSSI percentiles",
    influxQueryResult env 15 "Records in first half",
    influxQueryResult env 16 "Records in second half",
    influxQueryResult env 17 "Hourly user activity patterns",
    influxQueryResult env 18 "Daily RSSI variance",
    influxQueryResult env 19 "Peak usage hours",
    influxQueryResult env 20 "User session duration analysis"],
   tr1 ++
    [.plain 2, .plain 3, .plain 4,
     .rangeTo 5 middleTime, .rangeFrom 6 middleTime,
     .range 7 hourBefore hourAfter, .range 8 middleTime dayAfter,
     .plain 9, .plain 10, .plain 11, .plain 12, .plain 13, .plain 14,
     .range 15 minTime middleTime, .range 16 middleTime maxTime,
     .plain 17, .plain 18, .plain 19, .plain 20])

/-- Every InfluxDB query block records its own identifier whether the
call failed (sentinel) or succeeded (measured duration). -/
theorem influxQueryResult_queryId (env : InfluxQueryEnv) (id : Nat)
    (desc : String) : (influxQueryResult env id desc).queryId = id := by
  unfold influxQueryResult
  split <;> rfl

/-- Model of one `CREATE TABLE` statement as issued by a backend's
schema-setup step: the target table name and whether the statement
carries an `IF NOT EXISTS` clause. -/
structure CreateTableStmt where
  table : String
  ifNotExists : Bool
deriving DecidableEq, Repr

/-- Semantics of executing a `CREATE TABLE` statement against a backend
whose current schema holds the listed tables: creating an existing table
fails unless the statement says `IF NOT EXISTS` (in which case it leaves
the schema unchanged), and creating an absent table adds it. -/
def execCreateTable (existing : List String) (c : CreateTableStmt) :
    Except BenchErr (List String) :=
  if c.table ∈ existing then
    if c.ifNotExists then .ok existing else .error .schemaError
  else .ok (c.table :: existing)

/-- The postgres schema setup (entrypoint.go:80-87): `CREATE TABLE
user_events (...)` — despite the comment "Create the table if it doesn't
exist" at entrypoint.go:79, the statement has no `IF NOT EXISTS` clause
(only the accompanying index does). -/
def postgresCreateStmt : CreateTableStmt := ⟨"user_events", false⟩

/-- The timescaledb schema setup (entrypoint.go:417-427): `CREATE TABLE
user_events (...)`, again with no `IF NOT EXISTS` clause. -/
def timescaleCreateStmt : CreateTableStmt := ⟨"user_events", false⟩

/-- The cratedb schema setup (entrypoint.go:1825-1831): `CREATE TABLE IF
NOT EXISTS user_events (...)`. -/
def cratedbCreateStmt : CreateTableStmt := ⟨"user_events", true⟩

/-- The clickhouse schema setup (entrypoint.go:2211-2219): `CREATE TABLE
IF NOT EXISTS user_events (...)`. -/
def clickhouseCreateStmt : CreateTableStmt := ⟨"user_events", true⟩

/-- The recorder step shared by every benchmark function (e.g.
entrypoint.go:397-407): create the output file (losing it entirely when
creation fails), then encode the results into it; the second component
lists the files created on disk. -/
def writeResultFile (createFails encodeFails : Bool) (outFile : String)
    (results : BenchmarkResults) :
    Except BenchErr BenchmarkResults × List String :=
  if createFails then (.error .ioError, [])
  else if encodeFails then (.error .ioError, [outFile])
  else (.ok results, [outFile])

/-- Oracle for one full run of a SQL-style benchmark function:
`connFails` covers pool construction (and the clickhouse `Ping`),
`existingTables` the backend schema state seen by `CREATE TABLE`,
`dir`/`writeRejects`/`ingestDur` the ingestion phase, `q` the query
phase, and `createFails`/`encodeFails` the recorder step. -/
structure SqlRunEnv where
  connFails : Bool
  existingTables : List String
  dir : ChunkDir
  writeRejects : Nat → Bool
  ingestDur : Nat → Nat
  q : QueryEnv
  createFails : Bool
  encodeFails : Bool

/-- The abortable part of `benchmarkPostgres` (entrypoint.go:73-395):
connect, create the schema, run the checked ingestion loop from chunk 0,
run the query phase, and assemble the `BenchmarkResults` with the
`postgres` type tag; any error aborts and is returned unchanged. -/
def postgresRun (env : SqlRunEnv) : Except BenchErr BenchmarkResults :=
  if env.connFails then .error .connError
  else do
    let _ ← execCreateTable env.existingTables postgresCreateStmt
    let sp ← ingestLoopChecked env.dir env.writeRejects env.ingestDur 0 0
    let qp ← postgresQueryPhase env.q
    return ⟨"postgres", sp.1, qp.1⟩

/-- Shallow embedding of `benchmarkPostgres` (entrypoint.go:73-408)
including the recorder step. -/
def benchmarkPostgres (env : SqlRunEnv) (outFile : String) :
    Except BenchErr BenchmarkResults × List String :=
  match postgresRun env with
  | .error e => (.error e, [])
  | .ok results => writeResultFile env.createFails env.encodeFails outFile results

/-- The abortable part of `benchmarkTimescaleDb` (entrypoint.go:410-779):
identical to the postgres variant except for the schema statement, the
SQL dialect and the `timescaledb` type tag, and that all twenty queries
are issued (no sentinels). -/
def timescaleRun (env : SqlRunEnv) : Except BenchErr BenchmarkResults :=
  if env.connFails then .error .connError
  else do
    let _ ← execCreateTable env.existingTables timescaleCreateStmt
    let sp ← ingestLoopChecked env.dir env.writeRejects env.ingestDur 0 0
    let qs ← fullSqlQueryPhase env.q
    return ⟨"timescaledb", sp.1, qs⟩

/-- Shallow embedding of `benchmarkTimescaleDb` (entrypoint.go:410-792). -/
def benchmarkTimescaleDb (env : SqlRunEnv) (outFile : String) :
    Except BenchErr BenchmarkResults × List String :=
  match timescaleRun env with
  | .error e => (.error e, [])
  | .ok results => writeResultFile env.createFails env.encodeFails outFile results

/-- The abortable part of `benchmarkCrateDB` (entrypoint.go:1818-2180):
`CREATE TABLE IF NOT EXISTS`, batch-insert ingestion with checked errors,
all twenty queries issued. -/
def cratedbRun (env : SqlRunEnv) : Except BenchErr BenchmarkResults :=
  if env.connFails then .error .connError
  else do
    let _ ← execCreateTable env.existingTables cratedbCreateStmt
    let sp ← ingestLoopChecked env.dir env.writeRejects env.ingestDur 0 0
    let qs ← fullSqlQueryPhase env.q
    return ⟨"cratedb", sp.1, qs⟩

/-- Shallow embedding of `benchmarkCrateDB` (entrypoint.go:1818-2193). -/
def benchmarkCrateDB (env : SqlRunEnv) (outFile : String) :
    Except BenchErr BenchmarkResults × List String :=
  match cratedbRun env with
  | .error e => (.error e, [])
  | .ok results => writeResultFile env.createFails env.encodeFails outFile results

/-- The abortable part of `benchmarkClickHouse` (entrypoint.go:2195-2579):
`Ping` (covered by `connFails`), `CREATE TABLE IF NOT EXISTS`,
transactional batch ingestion with checked errors, all twenty queries
issued. -/
def clickhouseRun (env : SqlRunEnv) : Except BenchErr BenchmarkResults :=
  if env.connFails then .error .connError
  else do
    let _ ← execCreateTable env.existingTables clickhouseCreateStmt
    let sp ← ingestLoopChecked env.dir env.writeRejects env.ingestDur 0 0
    let qs ← fullSqlQueryPhase env.q
    return ⟨"clickhouse", sp.1, qs⟩

/-- Shallow embedding of `benchmarkClickHouse` (entrypoint.go:2195-2591). -/
def benchmarkClickHouse (env : SqlRunEnv) (outFile : String) :
    Except BenchErr BenchmarkResults × List String :=
  match clickhouseRun env with
  | .error e => (.error e, [])
  | .ok results => writeResultFile env.createFails env.encodeFails outFile results

/-- The connection attempts `benchmarkQuestDb` makes after parsing its
connection string (entrypoint.go:803-811): the line-sender ingestion
endpoint and the pgwire query endpoint, in that order. -/
inductive QdbConnect where
  | ingestConf (url : String)
  | queryConn (url : String)
deriving DecidableEq, Repr

/-- Oracle for one run of `benchmarkQuestDb`: the two connection
constructors can fail independently; the rest is as for the other
SQL-style backends (QuestDB issues all twenty queries). -/
structure QdbRunEnv where
  lineSenderFails : Bool
  pgxFails : Bool
  dir : ChunkDir
  writeRejects : Nat → Bool
  ingestDur : Nat → Nat
  q : QueryEnv
  createFails : Bool
  encodeFails : Bool

/-- Executable model of Go `strings.Split` for a non-empty separator:
scan the rune list left to right, cut at each non-overlapping occurrence
of the separator and continue after it.  `fuel` is an upper bound on the
number of scan steps; each step consumes at least one character, so
`fuel = s.length` always suffices. -/
def goSplitAux (sep : List Char) : Nat → List Char → List Char →
    List (List Char)
  | _, acc, [] => [acc.reverse]
  | 0, acc, s => [acc.reverse ++ s]
  | fuel + 1, acc, c :: cs =>
    if sep.isPrefixOf (c :: cs) then
      acc.reverse :: goSplitAux sep fuel [] (List.drop (sep.length - 1) cs)
    else goSplitAux sep fuel (c :: acc) cs

/-- Go `strings.Split(s, sep)` for the non-empty separators this program
uses (the source only ever splits on `":::"`; Go's rune-splitting
behaviour for an empty separator is out of scope and modelled as the
identity split). -/
def goStringsSplit (s sep : String) : List String :=
  if sep.isEmpty then [s]
  else (goSplitAux sep.data s.data.length [] s.data).map String.mk

/-- Shallow embedding of `benchmarkQuestDb` (entrypoint.go:794-1164).
The connection string is split on the literal separator `":::"`
(`strings.Split`, modelled by `goStringsSplit`); unless that yields
exactly two parts the function returns an error before any backend
contact.  Otherwise the first part configures the ingestion line sender
and the second the query pool; the third component of the result records
the connection attempts made. -/
def benchmarkQuestDb (connStr : String) (env : QdbRunEnv)
    (outFile : String) :
    Except BenchErr BenchmarkResults × List String × List QdbConnect :=
  let connParts := goStringsSplit connStr ":::"
  if h : connParts.length = 2 then
    let ingestUrl := connParts.get ⟨0, by omega⟩
    let queryUrl := connParts.get ⟨1, by omega⟩
    if env.lineSenderFails then
      (.error .connError, [], [.ingestConf ingestUrl])
    else if env.pgxFails then
      (.error .connError, [], [.ingestConf ingestUrl, .queryConn queryUrl])
    else
      let conns := [QdbConnect.ingestConf ingestUrl,
        QdbConnect.queryConn queryUrl]
      match ingestLoopChecked env.dir env.writeRejects env.ingestDur 0 0 with
      | .error e => (.error e, [], conns)
      | .ok sp =>
        match fullSqlQueryPhase env.q with
        | .error e => (.error e, [], conns)
        | .ok qs =>
          let wr := writeResultFile env.createFails env.encodeFails outFile
            ⟨"questdb", sp.1, qs⟩
          (wr.1, wr.2, conns)
  else (.error .invalidConnFormat, [], [])

/-- Oracle for one run of `benchmarkInfluxDB`.  `writeRejects` states
which chunks the backend would reject — the source never observes this
(the async write API error channel is never read, entrypoint.go:1189-
1200), so the field is deliberately never consulted by the embedding. -/
structure InfluxRunEnv where
  dir : ChunkDir
  writeRejects : Nat → Bool
  ingestDur : Nat → Nat
  q : InfluxQueryEnv
  createFails : Bool
  encodeFails : Bool

/-- Shallow embedding of `benchmarkInfluxDB` (entrypoint.go:1166-1816):
client construction is unchecked, ingestion checks only reader errors
(write errors are invisible, see `ingestLoopUnchecked`), the query phase
never aborts, then the recorder step runs. -/
def benchmarkInfluxDB (env : InfluxRunEnv) (outFile : String) :
    Except BenchErr BenchmarkResults × List String :=
  match ingestLoopUnchecked env.dir env.ingestDur 0 0 with
  | .error e => (.error e, [])
  | .ok sp =>
    let phase := influxQueryPhase env.q
    writeResultFile env.createFails env.encodeFails outFile
      ⟨"influxdb", sp.1, phase.1⟩

/-- A successful postgres run decomposes into a successful ingestion loop
and a successful query phase. -/
theorem postgresRun_ok {env : SqlRunEnv} {r : BenchmarkResults}
    (h : postgresRun env = .ok r) :
    ∃ sp qp, ingestLoopChecked env.dir env.writeRejects env.ingestDur 0 0
        = .ok sp ∧
      postgresQueryPhase env.q = .ok qp ∧
      r = ⟨"postgres", sp.1, qp.1⟩ := by
  unfold postgresRun at h
  by_cases hc : env.connFails
  · simp [hc] at h
  · simp only [hc, Bool.false_eq_true, if_false, except_bind_ok,
      except_pure_ok] at h
    obtain ⟨s, hs, sp, hsp, qp, hqp, hr⟩ := h
    exact ⟨sp, qp, hsp, hqp, hr.symm⟩

/-- A successful timescaledb run decomposes likewise. -/
theorem timescaleRun_ok {env : SqlRunEnv} {r : BenchmarkResults}
    (h : timescaleRun env = .ok r) :
    ∃ sp qs, ingestLoopChecked env.dir env.writeRejects env.ingestDur 0 0
        = .ok sp ∧
      fullSqlQueryPhase env.q = .ok qs ∧
      r = ⟨"timescaledb", sp.1, qs⟩ := by
  unfold timescaleRun at h
  by_cases hc : env.connFails
  · simp [hc] at h
  · simp only [hc, Bool.false_eq_true, if_false, except_bind_ok,
      except_pure_ok] at h
    obtain ⟨s, hs, sp, hsp, qs, hqs, hr⟩ := h
    exact ⟨sp, qs, hsp, hqs, hr.symm⟩

/-- A successful cratedb run decomposes likewise. -/
theorem cratedbRun_ok {env : SqlRunEnv} {r : BenchmarkResults}
    (h : cratedbRun env = .ok r) :
    ∃ sp qs, ingestLoopChecked env.dir env.writeRejects env.ingestDur 0 0
        = .ok sp ∧
      fullSqlQueryPhase env.q = .ok qs ∧
      r = ⟨"cratedb", sp.1, qs⟩ := by
  unfold cratedbRun at h
  by_cases hc : env.connFails
  · simp [hc] at h
  · simp only [hc, Bool.false_eq_true, if_false, except_bind_ok,
      except_pure_ok] at h
    obtain ⟨s, hs, sp, hsp, qs, hqs, hr⟩ := h
    exact ⟨sp, qs, hsp, hqs, hr.symm⟩

/-- A successful clickhouse run decomposes likewise. -/
theorem clickhouseRun_ok {env : SqlRunEnv} {r : BenchmarkResults}
    (h : clickhouseRun env = .ok r) :
    ∃ sp qs, ingestLoopChecked env.dir env.writeRejects env.ingestDur 0 0
        = .ok sp ∧
      fullSqlQueryPhase env.q = .ok qs ∧
      r = ⟨"clickhouse", sp.1, qs⟩ := by
  unfold clickhouseRun at h
  by_cases hc : env.connFails
  · simp [hc] at h
  · simp only [hc, Bool.false_eq_true, if_false, except_bind_ok,
      except_pure_ok] at h
    obtain ⟨s, hs, sp, hsp, qs, hqs, hr⟩ := h
    exact ⟨sp, qs, hsp, hqs, hr.symm⟩

/-- A successful recorder step publishes exactly the finished results to
exactly the requested output file. -/
theorem writeResultFile_ok {cf ef : Bool} {outFile : String}
    {results r : BenchmarkResults} {w : List String}
    (h : writeResultFile cf ef outFile results = (.ok r, w)) :
    r = results ∧ w = [outFile] := by
  unfold writeResultFile at h
  by_cases hc : cf
  · simp [hc] at h
  · by_cases he : ef
    · simp [hc, he] at h
    · simp only [hc, he, Bool.false_eq_true, if_false, Prod.mk.injEq,
        Except.ok.injEq] at h
      exact ⟨h.1.symm, h.2.symm⟩

/-- A successful `benchmarkPostgres` call consists of a successful run
serialized to the requested file. -/
theorem benchmarkPostgres_ok {env : SqlRunEnv} {outFile : String}
    {r : BenchmarkResults} {w : List String}
    (h : benchmarkPostgres env outFile = (.ok r, w)) :
    postgresRun env = .ok r ∧ w = [outFile] := by
  unfold benchmarkPostgres at h
  cases hrun : postgresRun env with
  | error e => rw [hrun] at h; simp at h
  | ok results =>
    rw [hrun] at h
    obtain ⟨h1, h2⟩ := writeResultFile_ok h
    subst h1
    exact ⟨rfl, h2⟩

/-- A successful `benchmarkTimescaleDb` call likewise. -/
theorem benchmarkTimescaleDb_ok {env : SqlRunEnv} {outFile : String}
    {r : BenchmarkResults} {w : List String}
    (h : benchmarkTimescaleDb env outFile = (.ok r, w)) :
    timescaleRun env = .ok r ∧ w = [outFile] := by
  unfold benchmarkTimescaleDb at h
  cases hrun : timescaleRun env with
  | error e => rw [hrun] at h; simp at h
  | ok results =>
    rw [hrun] at h
    obtain ⟨h1, h2⟩ := writeResultFile_ok h
    subst h1
    exact ⟨rfl, h2⟩

/-- A successful `benchmarkCrateDB` call likewise. -/
theorem benchmarkCrateDB_ok {env : SqlRunEnv} {outFile : String}
    {r : BenchmarkResults} {w : List String}
    (h : benchmarkCrateDB env outFile = (.ok r, w)) :
    cratedbRun env = .ok r ∧ w = [outFile] := by
  unfold benchmarkCrateDB at h
  cases hrun : cratedbRun env with
  | error e => rw [hrun] at h; simp at h
  | ok results =>
    rw [hrun] at h
    obtain ⟨h1, h2⟩ := writeResultFile_ok h
    subst h1
    exact ⟨rfl, h2⟩

/-- A successful `benchmarkClickHouse` call likewise. -/
theorem benchmarkClickHouse_ok {env : SqlRunEnv} {outFile : String}
    {r : BenchmarkResults} {w : List String}
    (h : benchmarkClickHouse env outFile = (.ok r, w)) :
    clickhouseRun env = .ok r ∧ w = [outFile] := by
  unfold benchmarkClickHouse at h
  cases hrun : clickhouseRun env with
  | error e => rw [hrun] at h; simp at h
  | ok results =>
    rw [hrun] at h
    obtain ⟨h1, h2⟩ := writeResultFile_ok h
    subst h1
    exact ⟨rfl, h2⟩

/-- A successful `benchmarkQuestDb` call decomposes into a two-part
connection string, successful connections, a successful ingestion loop
and query phase, and the recorder step. -/
theorem benchmarkQuestDb_ok {connStr : String} {env : QdbRunEnv}
    {outFile : String} {r : BenchmarkResults} {w : List String}
    {conns : List QdbConnect}
    (h : benchmarkQuestDb connStr env outFile = (.ok r, w, conns)) :
    ∃ sp qs, ingestLoopChecked env.dir env.writeRejects env.ingestDur 0 0
        = .ok sp ∧
      fullSqlQueryPhase env.q = .ok qs ∧
      r = ⟨"questdb", sp.1, qs⟩ ∧ w = [outFile] := by
  unfold benchmarkQuestDb at h
  by_cases hlen : (goStringsSplit connStr ":::").length = 2
  · simp only [hlen, dif_pos] at h
    by_cases hls : env.lineSenderFails
    · simp [hls] at h
    · by_cases hpx : env.pgxFails
      · simp [hls, hpx] at h
      · simp only [hls, hpx, Bool.false_eq_true, if_false] at h
        cases hing : ingestLoopChecked env.dir env.writeRejects
            env.ingestDur 0 0 with
        | error e => rw [hing] at h; simp at h
        | ok sp =>
          rw [hing] at h
          cases hqs : fullSqlQueryPhase env.q with
          | error e => rw [hqs] at h; simp at h
          | ok qs =>
            rw [hqs] at h
            simp only [Prod.mk.injEq] at h
            obtain ⟨h1, h2, h3⟩ := h
            obtain ⟨hr, hw⟩ := writeResultFile_ok (Prod.ext h1 h2)
            exact ⟨sp, qs, rfl, rfl, hr, hw⟩
  · simp [hlen] at h

/-- A successful `benchmarkInfluxDB` call decomposes into a successful
(reader-error-free) ingestion loop, the total query phase, and the
recorder step. -/
theorem benchmarkInfluxDB_ok {env : InfluxRunEnv} {outFile : String}
    {r : BenchmarkResults} {w : List String}
    (h : benchmarkInfluxDB env outFile = (.ok r, w)) :
    ∃ sp, ingestLoopUnchecked env.dir env.ingestDur 0 0 = .ok sp ∧
      r = ⟨"influxdb", sp.1, (influxQueryPhase env.q).1⟩ ∧
      w = [outFile] := by
  unfold benchmarkInfluxDB at h
  cases hing : ingestLoopUnchecked env.dir env.ingestDur 0 0 with
  | error e => rw [hing] at h; simp at h
  | ok sp =>
    rw [hing] at h
    obtain ⟨hr, hw⟩ := writeResultFile_ok h
    exact ⟨sp, rfl, hr, hw⟩

/-- The identifier sequence every completed run must report. -/
def ascendingIds : List Nat :=
  [1, 2, 3, 4, 5, 6, 7, 8, 9, 10, 11, 12, 13, 14, 15, 16, 17, 18, 19, 20]

/-- The InfluxDB query phase always reports identifiers 1..20 in order,
whatever combination of Flux calls fails. -/
theorem influxQueryPhase_ids (env : InfluxQueryEnv) :
    (influxQueryPhase env).1.map QueryResult.queryId = ascendingIds := by
  unfold influxQueryPhase ascendingIds
  by_cases h1 : env.q1MinFails <;> by_cases h2 : env.q1MaxFails <;>
    simp [h1, h2, influxQueryResult_queryId]

/-- C1: for every completed run of any of the six backend benchmark
functions, the resulting `Queries` list has exactly 20 entries whose
`QueryId` values are exactly 1,...,20 in strictly increasing order — no
duplicates, no gaps — regardless of how many queries the backend
supports (unsupported identifiers carry the sentinel duration). -/
theorem claim_C1_query_ids_exact :
    (∀ (env : SqlRunEnv) (outFile : String) r w,
      benchmarkPostgres env outFile = (.ok r, w) →
      r.queries.map QueryResult.queryId = ascendingIds) ∧
    (∀ (env : SqlRunEnv) (outFile : String) r w,
      benchmarkTimescaleDb env outFile = (.ok r, w) →
      r.queries.map QueryResult.queryId = ascendingIds) ∧
    (∀ (connStr : String) (env : QdbRunEnv) (outFile : String) r w conns,
      benchmarkQuestDb connStr env outFile = (.ok r, w, conns) →
      r.queries.map QueryResult.queryId = ascendingIds) ∧
    (∀ (env : SqlRunEnv) (outFile : String) r w,
      benchmarkCrateDB env outFile = (.ok r, w) →
      r.queries.map QueryResult.queryId = ascendingIds) ∧
    (∀ (env : SqlRunEnv) (outFile : String) r w,
      benchmarkClickHouse env outFile = (.ok r, w) →
      r.queries.map QueryResult.queryId = ascendingIds) ∧
    (∀ (env : InfluxRunEnv) (outFile : String) r w,
      benchmarkInfluxDB env outFile = (.ok r, w) →
      r.queries.map QueryResult.queryId = ascendingIds) := by
  refine ⟨?_, ?_, ?_, ?_, ?_, ?_⟩
  · intro env outFile r w h
    obtain ⟨hrun, hw⟩ := benchmarkPostgres_ok h
    obtain ⟨sp, qp, hing, hqp, hr⟩ := postgresRun_ok hrun
    obtain ⟨hx, hflags⟩ := postgresQueryPhase_ok hqp
    subst hr hx
    rfl
  · intro env outFile r w h
    obtain ⟨hrun, hw⟩ := benchmarkTimescaleDb_ok h
    obtain ⟨sp, qs, hing, hqs, hr⟩ := timescaleRun_ok hrun
    have hx := fullSqlQueryPhase_ok hqs
    subst hr hx
    rfl
  · intro connStr env outFile r w conns h
    obtain ⟨sp, qs, hing, hqs, hr, hw⟩ := benchmarkQuestDb_ok h
    have hx := fullSqlQueryPhase_ok hqs
    subst hr hx
    rfl
  · intro env outFile r w h
    obtain ⟨hrun, hw⟩ := benchmarkCrateDB_ok h
    obtain ⟨sp, qs, hing, hqs, hr⟩ := cratedbRun_ok hrun
    have hx := fullSqlQueryPhase_ok hqs
    subst hr hx
    rfl
  · intro env outFile r w h
    obtain ⟨hrun, hw⟩ := benchmarkClickHouse_ok h
    obtain ⟨sp, qs, hing, hqs, hr⟩ := clickhouseRun_ok hrun
    have hx := fullSqlQueryPhase_ok hqs
    subst hr hx
    rfl
  · intro env outFile r w h
    obtain ⟨sp, hing, hr, hw⟩ := benchmarkInfluxDB_ok h
    subst hr
    exact influxQueryPhase_ids env.q

/-- A one-chunk dataset directory with one empty chunk file, used to
instantiate the theorems on concrete runs. -/
def wDir : ChunkDir :=
  ⟨fun i => if i = 0 then .ok ⟨[]⟩ else .error .ioError, false, 1⟩

/-- A query oracle on which every call succeeds instantly. -/
def wQueryEnv : QueryEnv := ⟨fun _ => false, fun _ => 0, 0, 0⟩

/-- An InfluxDB query oracle on which every Flux call succeeds. -/
def wInfluxQueryEnv : InfluxQueryEnv :=
  ⟨false, false, fun _ => false, fun _ => 0, 0, 0⟩

/-- A fully healthy SQL-backend run environment. -/
def wSqlEnv : SqlRunEnv :=
  ⟨false, [], wDir, fun _ => false, fun _ => 0, wQueryEnv, false, false⟩

/-- A fully healthy QuestDB run environment. -/
def wQdbEnv : QdbRunEnv :=
  ⟨false, false, wDir, fun _ => false, fun _ => 0, wQueryEnv, false, false⟩

/-- A fully healthy InfluxDB run environment. -/
def wInfluxEnv : InfluxRunEnv :=
  ⟨wDir, fun _ => false, fun _ => 0, wInfluxQueryEnv, false, false⟩

/-- Concrete evaluation of the checked ingestion loop on the one-chunk
directory. -/
theorem wLoop_eval :
    ingestLoopChecked wDir (fun _ => false) (fun _ => 0) 0 0
      = .ok ([⟨0, 0⟩], 0) := by
  rw [ingestLoopChecked_unfold]
  rfl

/-- Concrete evaluation of a full healthy postgres benchmark run. -/
theorem wPostgres_eval :
    benchmarkPostgres wSqlEnv "out"
      = (.ok ⟨"postgres", [⟨0, 0⟩], pgSuccessQueries wQueryEnv⟩, ["out"]) := by
  simp only [benchmarkPostgres, postgresRun, wSqlEnv]
  rw [wLoop_eval]
  rfl

/-- Concrete evaluation of a full healthy timescaledb benchmark run. -/
theorem wTimescale_eval :
    benchmarkTimescaleDb wSqlEnv "out"
      = (.ok ⟨"timescaledb", [⟨0, 0⟩], fullSqlSuccessQueries wQueryEnv⟩,
         ["out"]) := by
  simp only [benchmarkTimescaleDb, timescaleRun, wSqlEnv]
  rw [wLoop_eval]
  rfl

/-- Concrete evaluation of a full healthy questdb benchmark run. -/
theorem wQuestDb_eval :
    benchmarkQuestDb "ingest:::query" wQdbEnv "out"
      = (.ok ⟨"questdb", [⟨0, 0⟩], fullSqlSuccessQueries wQueryEnv⟩,
         ["out"],
         [.ingestConf "ingest", .queryConn "query"]) := by
  have hsplit : goStringsSplit "ingest:::query" ":::"
      = ["ingest", "query"] := by rfl
  simp only [benchmarkQuestDb, wQdbEnv, hsplit]
  rw [wLoop_eval]
  rfl

/-- Concrete evaluation of a full healthy cratedb benchmark run. -/
theorem wCrateDb_eval :
    benchmarkCrateDB wSqlEnv "out"
      = (.ok ⟨"cratedb", [⟨0, 0⟩], fullSqlSuccessQueries wQueryEnv⟩,
         ["out"]) := by
  simp only [benchmarkCrateDB, cratedbRun, wSqlEnv]
  rw [wLoop_eval]
  rfl

/-- Concrete evaluation of a full healthy clickhouse benchmark run. -/
theorem wClickHouse_eval :
    benchmarkClickHouse wSqlEnv "out"
      = (.ok ⟨"clickhouse", [⟨0, 0⟩], fullSqlSuccessQueries wQueryEnv⟩,
         ["out"]) := by
  simp only [benchmarkClickHouse, clickhouseRun, wSqlEnv]
  rw [wLoop_eval]
  rfl

/-- Concrete evaluation of the unchecked ingestion loop on the one-chunk
directory. -/
theorem wLoopUnchecked_eval :
    ingestLoopUnchecked wDir (fun _ => 0) 0 0 = .ok ([⟨0, 0⟩], 0) := by
  rw [ingestLoopUnchecked]
  rfl

/-- Concrete evaluation of a full healthy influxdb benchmark run. -/
theorem wInflux_eval :
    benchmarkInfluxDB wInfluxEnv "out"
      = (.ok ⟨"influxdb", [⟨0, 0⟩], (influxQueryPhase wInfluxQueryEnv).1⟩,
         ["out"]) := by
  simp only [benchmarkInfluxDB, wInfluxEnv]
  rw [wLoopUnchecked_eval]
  rfl

/-- Witness for C1: a concrete healthy run of each of the six benchmark
functions reaches the success case, and the identifier sequence of each
result is exactly 1..20. -/
theorem claim_C1_query_ids_exact_witness :
    (benchmarkPostgres wSqlEnv "out"
        = (.ok ⟨"postgres", [⟨0, 0⟩], pgSuccessQueries wQueryEnv⟩, ["out"])
      ∧ (⟨"postgres", [⟨0, 0⟩], pgSuccessQueries wQueryEnv⟩ :
          BenchmarkResults).queries.map QueryResult.queryId = ascendingIds) ∧
    ((⟨"timescaledb", [⟨0, 0⟩], fullSqlSuccessQueries wQueryEnv⟩ :
          BenchmarkResults).queries.map QueryResult.queryId = ascendingIds) ∧
    ((⟨"questdb", [⟨0, 0⟩], fullSqlSuccessQueries wQueryEnv⟩ :
          BenchmarkResults).queries.map QueryResult.queryId = ascendingIds) ∧
    ((⟨"cratedb", [⟨0, 0⟩], fullSqlSuccessQueries wQueryEnv⟩ :
          BenchmarkResults).queries.map QueryResult.queryId = ascendingIds) ∧
    ((⟨"clickhouse", [⟨0, 0⟩], fullSqlSuccessQueries wQueryEnv⟩ :
          BenchmarkResults).queries.map QueryResult.queryId = ascendingIds) ∧
    ((⟨"influxdb", [⟨0, 0⟩], (influxQueryPhase wInfluxQueryEnv).1⟩ :
          BenchmarkResults).queries.map QueryResult.queryId = ascendingIds) :=
  ⟨⟨wPostgres_eval,
    claim_C1_query_ids_exact.1 wSqlEnv "out" _ _ wPostgres_eval⟩,
   claim_C1_query_ids_exact.2.1 wSqlEnv "out" _ _ wTimescale_eval,
   claim_C1_query_ids_exact.2.2.1 "ingest:::query" wQdbEnv "out" _ _ _
     wQuestDb_eval,
   claim_C1_query_ids_exact.2.2.2.1 wSqlEnv "out" _ _ wCrateDb_eval,
   claim_C1_query_ids_exact.2.2.2.2.1 wSqlEnv "out" _ _ wClickHouse_eval,
   claim_C1_query_ids_exact.2.2.2.2.2 wInfluxEnv "out" _ _ wInflux_eval⟩

/-- C2: the derived middle timestamp is exact: for query-1 bounds
`min = T0`, `max = T0 + D` the derivation yields `T0 + D/2` (Go duration
arithmetic, truncating division); in particular for `D = 7200s` the
middle is `T0 + 3600s`, and on such a run query 7 is issued with the
window `[T0, T0 + 7200s]`. -/
theorem claim_C2_middle_exact :
    (∀ t0 d : Int, goMiddleTime t0 (t0 + d) = t0 + Int.tdiv d 2) ∧
    (∀ t0 : Int, goMiddleTime t0 (t0 + 7200 * nsPerSecond)
      = t0 + 3600 * nsPerSecond) ∧
    (∀ (env : QueryEnv) (t0 : Int) qs tr,
      env.minTime = t0 → env.maxTime = t0 + 7200 * nsPerSecond →
      postgresQueryPhase env = .ok (qs, tr) →
      tr[6]? = some (.countBetween t0 (t0 + 7200 * nsPerSecond))) := by
  have hbase : ∀ t0 d : Int, goMiddleTime t0 (t0 + d) = t0 + Int.tdiv d 2 := by
    intro t0 d
    unfold goMiddleTime
    have h : t0 + d - t0 = d := by ring
    rw [h]
  have h7200 : ∀ t0 : Int,
      goMiddleTime t0 (t0 + 7200 * nsPerSecond) = t0 + 3600 * nsPerSecond := by
    intro t0
    rw [hbase]
    have : Int.tdiv (7200 * nsPerSecond) 2 = 3600 * nsPerSecond := by decide
    rw [this]
  refine ⟨hbase, h7200, ?_⟩
  intro env t0 qs tr hmin hmax h
  obtain ⟨hx, hflags⟩ := postgresQueryPhase_ok h
  have htr : tr = pgSuccessTrace env := congrArg Prod.snd hx
  subst htr
  unfold pgSuccessTrace
  rw [hmin, hmax, h7200 t0]
  have h1 : t0 + 3600 * nsPerSecond - hourNs = t0 := by
    unfold hourNs nsPerSecond
    ring
  have h2 : t0 + 3600 * nsPerSecond + hourNs = t0 + 7200 * nsPerSecond := by
    unfold hourNs nsPerSecond
    ring
  simp only [List.getElem?_cons_succ, List.getElem?_cons_zero, h1, h2]

/-- Witness for C2: a concrete postgres run with bounds `0` and `7200s`
issues query 7 with the window `[0, 7200s]`. -/
theorem claim_C2_middle_exact_witness :
    postgresQueryPhase ⟨fun _ => false, fun _ => 0, 0, 7200 * nsPerSecond⟩
      = .ok (pgSuccessQueries ⟨fun _ => false, fun _ => 0, 0, 7200 * nsPerSecond⟩,
             pgSuccessTrace ⟨fun _ => false, fun _ => 0, 0, 7200 * nsPerSecond⟩) ∧
    (pgSuccessTrace ⟨fun _ => false, fun _ => 0, 0, 7200 * nsPerSecond⟩)[6]?
      = some (.countBetween 0 (0 + 7200 * nsPerSecond)) :=
  ⟨by rfl,
   claim_C2_middle_exact.2.2 ⟨fun _ => false, fun _ => 0, 0, 7200 * nsPerSecond⟩
     0 _ _ rfl (by norm_num) (by rfl)⟩

/-- C3: on every completed postgres query phase the backend is asked for
the time bounds exactly once (query 1, the first call issued), the middle
timestamp is derived from that single result, and the identical derived
value parameterizes every dependent query (5, 6, 7, 15, 16; identifier
8 is a sentinel for this backend and issues no call) — the full call
trace is fixed and never re-queries the bounds. -/
theorem claim_C3_middle_derived_once :
    ∀ (env : QueryEnv) qs tr, postgresQueryPhase env = .ok (qs, tr) →
      tr = pgSuccessTrace env ∧
      tr.count SqlCall.timeBounds = 1 ∧
      tr[0]? = some .timeBounds ∧
      tr[4]? = some (.countBefore (goMiddleTime env.minTime env.maxTime)) ∧
      tr[5]? = some (.countAfter (goMiddleTime env.minTime env.maxTime)) ∧
      tr[6]? = some (.countBetween
        (goMiddleTime env.minTime env.maxTime - hourNs)
        (goMiddleTime env.minTime env.maxTime + hourNs)) ∧
      tr[12]? = some (.countBetween env.minTime
        (goMiddleTime env.minTime env.maxTime)) ∧
      tr[13]? = some (.countBetween
        (goMiddleTime env.minTime env.maxTime) env.maxTime) := by
  intro env qs tr h
  obtain ⟨hx, hflags⟩ := postgresQueryPhase_ok h
  have htr : tr = pgSuccessTrace env := congrArg Prod.snd hx
  subst htr
  refine ⟨rfl, ?_, rfl, rfl, rfl, rfl, rfl, rfl⟩
  rfl

/-- Witness for C3: the trace facts instantiated on a concrete healthy
postgres query phase. -/
theorem claim_C3_middle_derived_once_witness :
    postgresQueryPhase wQueryEnv
      = .ok (pgSuccessQueries wQueryEnv, pgSuccessTrace wQueryEnv) ∧
    (pgSuccessTrace wQueryEnv).count SqlCall.timeBounds = 1 ∧
    (pgSuccessTrace wQueryEnv)[0]? = some .timeBounds :=
  ⟨by rfl,
   (claim_C3_middle_derived_once wQueryEnv _ _ (by rfl)).2.1,
   (claim_C3_middle_derived_once wQueryEnv _ _ (by rfl)).2.2.1⟩

/-- C4: in the postgres adapter every query-phase error is the
backend/connection error of one of the fourteen issued (non-sentinel)
calls and aborts the run with that error; whenever an issued call fails
the phase cannot complete; and on a completed phase the six identifiers
the backend cannot express (8, 14, 17, 18, 19, 20) carry the sentinel
duration -1 while every other entry carries a measured duration ≥ 0. -/
theorem claim_C4_sentinel_vs_abort :
    (∀ (env : QueryEnv) (e : BenchErr), postgresQueryPhase env = .error e →
      ∃ id, e = .queryError id ∧ id ∈ pgSupportedIds ∧ env.fails id = true) ∧
    (∀ (env : QueryEnv), (∃ id ∈ pgSupportedIds, env.fails id = true) →
      ∀ x, postgresQueryPhase env ≠ .ok x) ∧
    (∀ (env : QueryEnv) qs tr, postgresQueryPhase env = .ok (qs, tr) →
      ∀ q ∈ qs, (q.queryId ∈ pgSentinelIds → q.durationMs = -1) ∧
        (q.queryId ∉ pgSentinelIds → 0 ≤ q.durationMs)) := by
  refine ⟨?_, ?_, ?_⟩
  · intro env e h
    exact postgresQueryPhase_error h
  · rintro env ⟨id, hmem, hfail⟩ x hok
    obtain ⟨hx, hflags⟩ := postgresQueryPhase_ok hok
    rw [hflags id hmem] at hfail
    exact absurd hfail (by simp)
  · intro env qs tr h q hq
    obtain ⟨hx, hflags⟩ := postgresQueryPhase_ok h
    have hqs : qs = pgSuccessQueries env := congrArg Prod.fst hx
    subst hqs
    fin_cases hq <;>
      refine ⟨fun hmem => ?_, fun hmem => ?_⟩ <;>
      first
      | rfl
      | exact Int.ofNat_nonneg _
      | simp [pgSentinelIds] at hmem

/-- Witness for C4: on the all-healthy oracle the phase completes and the
sentinel/measured split holds for its first entry; on an oracle where
call 2 fails, the phase is refuted from completing. -/
theorem claim_C4_sentinel_vs_abort_witness :
    (postgresQueryPhase ⟨fun i => i == 2, fun _ => 0, 0, 0⟩
      = .error (.queryError 2)) ∧
    (∃ id ∈ pgSupportedIds,
      (⟨fun i => i == 2, fun _ => 0, 0, 0⟩ : QueryEnv).fails id = true) ∧
    (∀ x, postgresQueryPhase ⟨fun i => i == 2, fun _ => 0, 0, 0⟩ ≠ .ok x) ∧
    (postgresQueryPhase wQueryEnv
      = .ok (pgSuccessQueries wQueryEnv, pgSuccessTrace wQueryEnv)) ∧
    (∀ q ∈ pgSuccessQueries wQueryEnv,
      (q.queryId ∈ pgSentinelIds → q.durationMs = -1) ∧
      (q.queryId ∉ pgSentinelIds → 0 ≤ q.durationMs)) :=
  ⟨by rfl,
   ⟨2, by decide, by rfl⟩,
   claim_C4_sentinel_vs_abort.2.1 ⟨fun i => i == 2, fun _ => 0, 0, 0⟩
     ⟨2, by decide, by rfl⟩,
   by rfl,
   claim_C4_sentinel_vs_abort.2.2 wQueryEnv _ _ (by rfl)⟩

/-- C5 (evaluation at the failing input): running the schema-setup
statement twice from an empty schema succeeds for the cratedb and
clickhouse adapters (`CREATE TABLE IF NOT EXISTS`, second run leaves the
single table unchanged) but fails for the postgres and timescaledb
adapters, whose `CREATE TABLE user_events` carries no `IF NOT EXISTS`
clause — the second invocation aborts with the schema error, so their
Prepare step is not idempotent. -/
theorem claim_C5_prepare_second_run :
    ((execCreateTable [] postgresCreateStmt).bind
        (fun s => execCreateTable s postgresCreateStmt)
      = .error .schemaError) ∧
    ((execCreateTable [] timescaleCreateStmt).bind
        (fun s => execCreateTable s timescaleCreateStmt)
      = .error .schemaError) ∧
    ((execCreateTable [] cratedbCreateStmt).bind
        (fun s => execCreateTable s cratedbCreateStmt)
      = .ok ["user_events"]) ∧
    ((execCreateTable [] clickhouseCreateStmt).bind
        (fun s => execCreateTable s clickhouseCreateStmt)
      = .ok ["user_events"]) := by
  refine ⟨rfl, rfl, rfl, rfl⟩

/-- C6: `hasMore` is true exactly when `index+1` is less than the number
of directory entries at call time; consequently, in a directory holding
exactly `K` chunk files indexed `0..K-1`, a sequential scan sees
`hasMore = false` exactly once — on the call for index `K-1` — and
`hasMore = true` on every earlier call. -/
theorem claim_C6_hasmore_from_dir_listing :
    (∀ (d : ChunkDir) (i : Nat) (hm : Bool) (f : ReadingFile),
      loadDataChunk d i = .ok (hm, f) → (hm = true ↔ i + 1 < d.dirCount)) ∧
    (∀ (d : ChunkDir) (K : Nat), d.dirCount = K → d.readDirFails = false →
      ∀ (i : Nat) (f : ReadingFile), i < K → d.chunks i = .ok f →
        (i = K - 1 → loadDataChunk d i = .ok (false, f)) ∧
        (i ≠ K - 1 → loadDataChunk d i = .ok (true, f))) := by
  constructor
  · intro d i hm f h
    constructor
    · intro hhm
      subst hhm
      exact loadDataChunk_true_lt h
    · intro hlt
      cases hm with
      | true => rfl
      | false => exact absurd hlt (loadDataChunk_false_ge h)
  · intro d K hK hrd i f hiK hok
    subst hK
    constructor
    · intro hlast
      unfold loadDataChunk
      rw [hok]
      have hnotlt : ¬ i + 1 < d.dirCount := by omega
      simp [hrd, hnotlt]
    · intro hnotlast
      unfold loadDataChunk
      rw [hok]
      have hlt : i + 1 < d.dirCount := by omega
      simp [hrd, hlt]

/-- Witness for C6: in a concrete two-chunk directory the call for index
0 reports more chunks and the call for index 1 reports the end. -/
theorem claim_C6_hasmore_from_dir_listing_witness :
    (loadDataChunk
        ⟨fun i => if i ≤ 1 then .ok ⟨[]⟩ else .error .ioError, false, 2⟩ 0
      = .ok (true, ⟨[]⟩)) ∧
    (loadDataChunk
        ⟨fun i => if i ≤ 1 then .ok ⟨[]⟩ else .error .ioError, false, 2⟩ 1
      = .ok (false, ⟨[]⟩)) ∧
    ((true = true) ↔ 0 + 1 < 2) :=
  ⟨((claim_C6_hasmore_from_dir_listing.2
      ⟨fun i => if i ≤ 1 then .ok ⟨[]⟩ else .error .ioError, false, 2⟩
      2 rfl rfl 0 ⟨[]⟩ (by omega) (by rfl)).2 (by omega)),
   ((claim_C6_hasmore_from_dir_listing.2
      ⟨fun i => if i ≤ 1 then .ok ⟨[]⟩ else .error .ioError, false, 2⟩
      2 rfl rfl 1 ⟨[]⟩ (by omega) (by rfl)).1 rfl),
   claim_C6_hasmore_from_dir_listing.1
      ⟨fun i => if i ≤ 1 then .ok ⟨[]⟩ else .error .ioError, false, 2⟩
      0 true ⟨[]⟩ (by rfl)⟩

/-- A fixed input record for concrete chunk contents. -/
def wReading : Reading := ⟨"u", 0, "s", 0⟩

/-- A concrete two-chunk dataset directory with chunk sizes 3 and 2. -/
def wDir2 : ChunkDir :=
  ⟨fun i => if i = 0 then .ok ⟨[wReading, wReading, wReading]⟩
    else if i = 1 then .ok ⟨[wReading, wReading]⟩
    else .error .ioError, false, 2⟩

/-- C7: on every completed ingestion, the `k`-th `IngestionSample`'s
`nRecords` is the cumulative size of chunks `0..k` (not the per-chunk
count), hence the sequence is non-decreasing and the loop's final count
is the sum of all chunk sizes; concretely, a 2-chunk dataset of 3 and 2
records yields the sample list `[{n:3}, {n:5}]` in that order. -/
theorem claim_C7_cumulative_counts :
    (∀ (d : ChunkDir) (rejects : Nat → Bool) (dur : Nat → Nat)
       (samples : List IngestionSample) (nFinal : Nat),
      ingestLoopChecked d rejects dur 0 0 = .ok (samples, nFinal) →
      (∀ k (hk : k < samples.length),
        (samples.get ⟨k, hk⟩).nRecords
          = ∑ j ∈ Finset.range (k + 1), chunkLen d j) ∧
      (∀ k l (hk : k < samples.length) (hl : l < samples.length), k ≤ l →
        (samples.get ⟨k, hk⟩).nRecords ≤ (samples.get ⟨l, hl⟩).nRecords) ∧
      (1 ≤ d.dirCount →
        samples.length = d.dirCount ∧
        nFinal = ∑ j ∈ Finset.range d.dirCount, chunkLen d j)) ∧
    (ingestLoopChecked wDir2 (fun _ => false) (fun _ => 0) 0 0
        = .ok ([⟨0, 3⟩, ⟨0, 5⟩], 5) ∧
      chunkLen wDir2 0 = 3 ∧ chunkLen wDir2 1 = 2) := by
  constructor
  · intro d rejects dur samples nFinal h
    obtain ⟨hlen, hrec, hfin⟩ := ingestLoopChecked_ok_spec 0 0 samples nFinal h
    have hsum0 : ∀ k : Nat,
        ∑ j ∈ Finset.range k, chunkLen d (0 + j)
          = ∑ j ∈ Finset.range k, chunkLen d j := by
      intro k
      apply Finset.sum_congr rfl
      intro j hj
      rw [Nat.zero_add]
    have hform : ∀ k (hk : k < samples.length),
        (samples.get ⟨k, hk⟩).nRecords
          = ∑ j ∈ Finset.range (k + 1), chunkLen d j := by
      intro k hk
      rw [hrec k hk, hsum0, Nat.zero_add]
    refine ⟨hform, ?_, ?_⟩
    · intro k l hk hl hkl
      rw [hform k hk, hform l hl]
      apply Finset.sum_le_sum_of_subset
      exact Finset.range_subset.mpr (by omega)
    · intro hd
      have hlen2 : samples.length = d.dirCount := by
        rw [hlen]
        omega
      refine ⟨hlen2, ?_⟩
      rw [hfin, hsum0, Nat.zero_add, hlen2]
  · refine ⟨?_, rfl, rfl⟩
    have hloop1 : ingestLoopChecked wDir2 (fun _ => false) (fun _ => 0) 1 3
        = .ok ([⟨0, 5⟩], 5) := by
      rw [ingestLoopChecked_unfold]
      rfl
    have hld0 : loadDataChunk wDir2 0
        = .ok (true, ⟨[wReading, wReading, wReading]⟩) := by rfl
    rw [ingestLoopChecked_unfold, hld0]
    simp [hloop1]

/-- Witness for C7: the general cumulative-count facts instantiated on
the concrete 2-chunk run of sizes 3 and 2. -/
theorem claim_C7_cumulative_counts_witness :
    ingestLoopChecked wDir2 (fun _ => false) (fun _ => 0) 0 0
      = .ok ([⟨0, 3⟩, ⟨0, 5⟩], 5) ∧
    (1 ≤ wDir2.dirCount →
      ([⟨0, 3⟩, ⟨0, 5⟩] : List IngestionSample).length = wDir2.dirCount ∧
      5 = ∑ j ∈ Finset.range wDir2.dirCount, chunkLen wDir2 j) :=
  ⟨claim_C7_cumulative_counts.2.1,
   (claim_C7_cumulative_counts.1 wDir2 (fun _ => false) (fun _ => 0)
      [⟨0, 3⟩, ⟨0, 5⟩] 5 claim_C7_cumulative_counts.2.1).2.2⟩

/-- Reduction of a bind whose first stage already succeeded. -/
theorem except_ok_bind {α β : Type} (a : α) (f : α → Except BenchErr β) :
    (Except.ok a >>= f) = f a := rfl

/-- Reduction of a bind whose first stage already failed. -/
theorem except_error_bind {α β : Type} (e : BenchErr)
    (f : α → Except BenchErr β) :
    ((Except.error e : Except BenchErr α) >>= f) = .error e := rfl

/-- An InfluxDB run environment whose backend rejects the write of chunk
0: the source cannot observe this, so the run proceeds as if healthy. -/
def cxInfluxEnv : InfluxRunEnv :=
  ⟨wDir, fun i => i == 0, fun _ => 0, wInfluxQueryEnv, false, false⟩

/-- Counterexample to C8 as stated: in the InfluxDB adapter a backend
write rejection during ingestion does not abort the run — the write API
is asynchronous, its error channel is never read and `Flush()` returns
nothing (entrypoint.go:1189-1200) — so with the very first chunk's write
rejected the benchmark still completes and produces the output
artifact. -/
theorem claim_C8_write_rejection_ignored :
    cxInfluxEnv.writeRejects 0 = true ∧
    benchmarkInfluxDB cxInfluxEnv "out"
      = (.ok ⟨"influxdb", [⟨0, 0⟩], (influxQueryPhase wInfluxQueryEnv).1⟩,
         ["out"]) := by
  refine ⟨rfl, ?_⟩
  simp only [benchmarkInfluxDB, cxInfluxEnv]
  rw [wLoopUnchecked_eval]
  rfl

/-- C8 as amended: a chunk read/decode failure aborts the ingestion loop
with that error, and a backend write rejection aborts the checked loop
the five non-InfluxDB backends use; on any ingestion-loop failure each
benchmark function returns that error with no output file created and
the accumulated samples discarded; for InfluxDB only reader failures
abort (write rejections are invisible, see the counterexample). -/
theorem claim_C8_ingest_failure_aborts :
    (∀ (d : ChunkDir) (rejects : Nat → Bool) (dur : Nat → Nat)
       (i nRec : Nat) (e : BenchErr), d.chunks i = .error e →
      ingestLoopChecked d rejects dur i nRec = .error e) ∧
    (∀ (d : ChunkDir) (rejects : Nat → Bool) (dur : Nat → Nat)
       (i nRec : Nat) (hasNext : Bool) (f : ReadingFile),
      loadDataChunk d i = .ok (hasNext, f) → rejects i = true →
      ingestLoopChecked d rejects dur i nRec = .error (.ingestError i)) ∧
    (∀ (env : SqlRunEnv) (outFile : String) (e : BenchErr),
      ingestLoopChecked env.dir env.writeRejects env.ingestDur 0 0
          = .error e →
      env.connFails = false →
      (∃ s, execCreateTable env.existingTables postgresCreateStmt = .ok s) →
      benchmarkPostgres env outFile = (.error e, [])) ∧
    (∀ (env : SqlRunEnv) (outFile : String) (e : BenchErr),
      ingestLoopChecked env.dir env.writeRejects env.ingestDur 0 0
          = .error e →
      env.connFails = false →
      (∃ s, execCreateTable env.existingTables timescaleCreateStmt = .ok s) →
      benchmarkTimescaleDb env outFile = (.error e, [])) ∧
    (∀ (env : SqlRunEnv) (outFile : String) (e : BenchErr),
      ingestLoopChecked env.dir env.writeRejects env.ingestDur 0 0
          = .error e →
      env.connFails = false →
      (∃ s, execCreateTable env.existingTables cratedbCreateStmt = .ok s) →
      benchmarkCrateDB env outFile = (.error e, [])) ∧
    (∀ (env : SqlRunEnv) (outFile : String) (e : BenchErr),
      ingestLoopChecked env.dir env.writeRejects env.ingestDur 0 0
          = .error e →
      env.connFails = false →
      (∃ s, execCreateTable env.existingTables clickhouseCreateStmt = .ok s) →
      benchmarkClickHouse env outFile = (.error e, [])) ∧
    (∀ (connStr : String) (env : QdbRunEnv) (outFile : String) (e : BenchErr),
      (goStringsSplit connStr ":::").length = 2 →
      env.lineSenderFails = false → env.pgxFails = false →
      ingestLoopChecked env.dir env.writeRejects env.ingestDur 0 0
          = .error e →
      ∃ conns, benchmarkQuestDb connStr env outFile = (.error e, [], conns)) ∧
    (∀ (env : InfluxRunEnv) (outFile : String) (e : BenchErr),
      ingestLoopUnchecked env.dir env.ingestDur 0 0 = .error e →
      benchmarkInfluxDB env outFile = (.error e, [])) := by
  refine ⟨?_, ?_, ?_, ?_, ?_, ?_, ?_, ?_⟩
  · intro d rejects dur i nRec e hchunks
    apply ingestLoopChecked_err_step
    unfold loadDataChunk
    rw [hchunks]
  · intro d rejects dur i nRec hasNext f hld hrej
    rw [ingestLoopChecked_ok_step hld]
    simp [hrej]
  · rintro env outFile e hing hconn ⟨s, hs⟩
    unfold benchmarkPostgres postgresRun
    simp only [hconn, Bool.false_eq_true, if_false]
    rw [hs, except_ok_bind, hing, except_error_bind]
  · rintro env outFile e hing hconn ⟨s, hs⟩
    unfold benchmarkTimescaleDb timescaleRun
    simp only [hconn, Bool.false_eq_true, if_false]
    rw [hs, except_ok_bind, hing, except_error_bind]
  · rintro env outFile e hing hconn ⟨s, hs⟩
    unfold benchmarkCrateDB cratedbRun
    simp only [hconn, Bool.false_eq_true, if_false]
    rw [hs, except_ok_bind, hing, except_error_bind]
  · rintro env outFile e hing hconn ⟨s, hs⟩
    unfold benchmarkClickHouse clickhouseRun
    simp only [hconn, Bool.false_eq_true, if_false]
    rw [hs, except_ok_bind, hing, except_error_bind]
  · intro connStr env outFile e hlen hls hpx hing
    unfold benchmarkQuestDb
    simp only [hlen, dif_pos, hls, hpx, Bool.false_eq_true, if_false]
    rw [hing]
    exact ⟨_, rfl⟩
  · intro env outFile e hing
    unfold benchmarkInfluxDB
    rw [hing]

/-- A dataset directory whose very first chunk file fails to read. -/
def wBadDir : ChunkDir := ⟨fun _ => .error .ioError, false, 1⟩

/-- A SQL-backend run environment over the unreadable directory. -/
def wBadSqlEnv : SqlRunEnv :=
  ⟨false, [], wBadDir, fun _ => false, fun _ => 0, wQueryEnv, false, false⟩

/-- A QuestDB run environment over the unreadable directory. -/
def wBadQdbEnv : QdbRunEnv :=
  ⟨false, false, wBadDir, fun _ => false, fun _ => 0, wQueryEnv, false,
   false⟩

/-- An InfluxDB run environment over the unreadable directory. -/
def wBadInfluxEnv : InfluxRunEnv :=
  ⟨wBadDir, fun _ => false, fun _ => 0, wInfluxQueryEnv, false, false⟩

/-- Witness for the amended C8: on a directory whose first chunk read
fails, each benchmark function returns the reader's error with no file
created; on a healthy one-chunk directory with the write rejected, the
checked loop fails with the ingestion error. -/
theorem claim_C8_ingest_failure_aborts_witness :
    ingestLoopChecked wBadDir (fun _ => false) (fun _ => 0) 0 0
      = .error .ioError ∧
    ingestLoopChecked wDir (fun _ => true) (fun _ => 0) 0 0
      = .error (.ingestError 0) ∧
    benchmarkPostgres wBadSqlEnv "out" = (.error .ioError, []) ∧
    benchmarkTimescaleDb wBadSqlEnv "out" = (.error .ioError, []) ∧
    benchmarkCrateDB wBadSqlEnv "out" = (.error .ioError, []) ∧
    benchmarkClickHouse wBadSqlEnv "out" = (.error .ioError, []) ∧
    (∃ conns, benchmarkQuestDb "ingest:::query" wBadQdbEnv "out"
      = (.error .ioError, [], conns)) ∧
    benchmarkInfluxDB wBadInfluxEnv "out" = (.error .ioError, []) :=
  have hing : ingestLoopChecked wBadDir (fun _ => false) (fun _ => 0) 0 0
      = .error .ioError :=
    claim_C8_ingest_failure_aborts.1 wBadDir (fun _ => false) (fun _ => 0)
      0 0 .ioError rfl
  ⟨hing,
   claim_C8_ingest_failure_aborts.2.1 wDir (fun _ => true) (fun _ => 0)
     0 0 false ⟨[]⟩ rfl rfl,
   claim_C8_ingest_failure_aborts.2.2.1 wBadSqlEnv "out" .ioError hing rfl
     ⟨["user_events"], rfl⟩,
   claim_C8_ingest_failure_aborts.2.2.2.1 wBadSqlEnv "out" .ioError hing rfl
     ⟨["user_events"], rfl⟩,
   claim_C8_ingest_failure_aborts.2.2.2.2.1 wBadSqlEnv "out" .ioError hing
     rfl ⟨["user_events"], rfl⟩,
   claim_C8_ingest_failure_aborts.2.2.2.2.2.1 wBadSqlEnv "out" .ioError hing
     rfl ⟨["user_events"], rfl⟩,
   claim_C8_ingest_failure_aborts.2.2.2.2.2.2.1 "ingest:::query" wBadQdbEnv
     "out" .ioError (by rfl) rfl rfl hing,
   claim_C8_ingest_failure_aborts.2.2.2.2.2.2.2 wBadInfluxEnv "out" .ioError
     (by rw [ingestLoopUnchecked]; rfl)⟩

/-- C9: in the InfluxDB adapter a failure of query 1 (its first Flux
call) does not abort the run: the sentinel result is recorded for
identifier 1, all twenty identifiers are still reported, and — since
`minTime`/`maxTime` keep the Go zero `time.Time` — the middle timestamp
degenerates to the zero timestamp, so queries 5-8, 15 and 16 are issued
with windows derived from the zero timestamp instead of the dataset's
time range; the surrounding benchmark still completes and writes its
artifact. -/
theorem claim_C9_influx_q1_failure_continues :
    (∀ (env : InfluxQueryEnv), env.q1MinFails = true →
      (influxQueryPhase env).1[0]? = some ⟨1, -1, "Get time bounds"⟩ ∧
      (influxQueryPhase env).1.map QueryResult.queryId = ascendingIds ∧
      (influxQueryPhase env).2
        = [.minTimeQ, .plain 2, .plain 3, .plain 4,
           .rangeTo 5 goZeroTime, .rangeFrom 6 goZeroTime,
           .range 7 (goZeroTime - hourNs) (goZeroTime + hourNs),
           .range 8 goZeroTime (goZeroTime + dayNs),
           .plain 9, .plain 10, .plain 11, .plain 12, .plain 13, .plain 14,
           .range 15 goZeroTime goZeroTime, .range 16 goZeroTime goZeroTime,
           .plain 17, .plain 18, .plain 19, .plain 20]) ∧
    (∀ (env : InfluxRunEnv) (outFile : String) sp,
      env.q.q1MinFails = true →
      ingestLoopUnchecked env.dir env.ingestDur 0 0 = .ok sp →
      env.createFails = false → env.encodeFails = false →
      benchmarkInfluxDB env outFile
        = (.ok ⟨"influxdb", sp.1, (influxQueryPhase env.q).1⟩, [outFile])) := by
  have hmid : goMiddleTime goZeroTime goZeroTime = goZeroTime := by decide
  constructor
  · intro env h1
    refine ⟨?_, influxQueryPhase_ids env, ?_⟩
    · unfold influxQueryPhase
      simp [h1]
    · unfold influxQueryPhase
      simp [h1, hmid]
  · intro env outFile sp h1 hing hc he
    unfold benchmarkInfluxDB
    rw [hing]
    unfold writeResultFile
    simp [hc, he]

/-- Witness for C9: a concrete InfluxDB run whose query-1 min call fails
still completes, reporting the sentinel for identifier 1. -/
theorem claim_C9_influx_q1_failure_continues_witness :
    ((influxQueryPhase ⟨true, false, fun _ => false, fun _ => 0, 0, 0⟩).1[0]?
      = some ⟨1, -1, "Get time bounds"⟩) ∧
    benchmarkInfluxDB
        ⟨wDir, fun _ => false, fun _ => 0,
         ⟨true, false, fun _ => false, fun _ => 0, 0, 0⟩, false, false⟩ "out"
      = (.ok ⟨"influxdb", [⟨0, 0⟩],
          (influxQueryPhase
            ⟨true, false, fun _ => false, fun _ => 0, 0, 0⟩).1⟩,
         ["out"]) :=
  ⟨(claim_C9_influx_q1_failure_continues.1
      ⟨true, false, fun _ => false, fun _ => 0, 0, 0⟩ rfl).1,
   claim_C9_influx_q1_failure_continues.2
     ⟨wDir, fun _ => false, fun _ => 0,
      ⟨true, false, fun _ => false, fun _ => 0, 0, 0⟩, false, false⟩
     "out" ([⟨0, 0⟩], 0) rfl (by rw [ingestLoopUnchecked]; rfl) rfl rfl⟩

/-- C10: `benchmarkQuestDb` errors before contacting any backend unless
splitting the connection string on `":::"` yields exactly two parts (no
connection attempt appears in its trace); when it does, the first part
configures the ingestion line sender and the second the query pool, in
that order. -/
theorem claim_C10_questdb_connstr_format :
    (∀ (connStr : String) (env : QdbRunEnv) (outFile : String),
      (goStringsSplit connStr ":::").length ≠ 2 →
      benchmarkQuestDb connStr env outFile
        = (.error .invalidConnFormat, [], [])) ∧
    (∀ (connStr : String) (env : QdbRunEnv) (outFile : String)
       (h : (goStringsSplit connStr ":::").length = 2),
      (env.lineSenderFails = true →
        (benchmarkQuestDb connStr env outFile).2.2
          = [.ingestConf ((goStringsSplit connStr ":::").get
              ⟨0, by omega⟩)]) ∧
      (env.lineSenderFails = false →
        (benchmarkQuestDb connStr env outFile).2.2
          = [.ingestConf ((goStringsSplit connStr ":::").get ⟨0, by omega⟩),
             .queryConn ((goStringsSplit connStr ":::").get
              ⟨1, by omega⟩)])) := by
  constructor
  · intro connStr env outFile hlen
    unfold benchmarkQuestDb
    simp [hlen]
  · intro connStr env outFile h
    constructor
    · intro hls
      unfold benchmarkQuestDb
      simp [h, hls]
    · intro hls
      unfold benchmarkQuestDb
      simp only [h, dif_pos, hls, Bool.false_eq_true, if_false]
      by_cases hpx : env.pgxFails
      · simp [hpx]
      · simp only [hpx, Bool.false_eq_true, if_false]
        cases hing : ingestLoopChecked env.dir env.writeRejects
            env.ingestDur 0 0 with
        | error e => rfl
        | ok sp =>
          cases hqs : fullSqlQueryPhase env.q with
          | error e => rfl
          | ok qs => rfl

/-- Witness for C10: a separator-free connection string is rejected with
no connection attempt, and a well-formed one leads to the two connection
attempts with its two parts. -/
theorem claim_C10_questdb_connstr_format_witness :
    benchmarkQuestDb "nosep" wQdbEnv "out"
      = (.error .invalidConnFormat, [], []) ∧
    (benchmarkQuestDb "ingest:::query" wQdbEnv "out").2.2
      = [.ingestConf ((goStringsSplit "ingest:::query" ":::").get
          ⟨0, by decide⟩),
         .queryConn ((goStringsSplit "ingest:::query" ":::").get
          ⟨1, by decide⟩)] :=
  ⟨claim_C10_questdb_connstr_format.1 "nosep" wQdbEnv "out" (by decide),
   (claim_C10_questdb_connstr_format.2 "ingest:::query" wQdbEnv "out"
      (by decide)).2 rfl⟩
